import Mathlib

/-!
Verification development for the single-host GPU task scheduler
(`backend/app/task_manager.py`, `backend/app/gpu_monitor.py`,
`backend/app/schemas.py`, `backend/app/main.py`).

The Python sources are shallowly embedded as executable Lean definitions:
SQLite rows become a list of `TaskRow` records, the queue is a list of task
ids (head first, matching `deque.popleft`/`append`), the in-memory running
map is an association list in insertion order (matching Python `dict`
semantics), and external effects (tmux, the filesystem, the launcher
subprocess steps, clock readings) are passed in explicitly through a
`TickEnv` record.  Python strings are Lean `String`s, and the handful of
string operations the code uses (`str.strip`, `str.split`, file-line
iteration, `int(...)` parsing) are re-implemented over `String.data` so
that every definition evaluates by kernel reduction.
-/

/-- `TaskStatus` from `schemas.py`: the five lifecycle states. -/
inductive TaskStatus where
  | queued
  | running
  | completed
  | failed
  | cancelled
  deriving DecidableEq, Repr

/-- A GPU compute process as parsed by `gpu_monitor.py` (`GPUProcess`). -/
structure GPUProcess where
  pid : Int
  name : String
  used_memory : Option Int := none
  username : Option String := none
  deriving DecidableEq, Repr

/-- One GPU as reported by the probe (`gpu_monitor.GPUState`). -/
structure GPUState where
  index : Int
  name : String
  uuid : Option String := none
  memory_total : Option Int := none
  memory_used : Option Int := none
  utilization_gpu : Option Int := none
  utilization_mem : Option Int := none
  processes : List GPUProcess := []
  deriving DecidableEq, Repr

/-- `GPUProcessInfo` from `schemas.py`. -/
structure GPUProcessInfo where
  pid : Int
  name : String
  username : Option String
  used_memory : Option Int := none
  deriving DecidableEq, Repr

/-- `GPUInfo` from `schemas.py`.  `uuid` and `processes` carry the pydantic
defaults (`None` and `[]`), exactly as declared in the schema. -/
structure GPUInfo where
  index : Int
  uuid : Option String := none
  name : String
  memory_total : Option Int := none
  memory_used : Option Int := none
  utilization_gpu : Option Int := none
  utilization_mem : Option Int := none
  assigned_task_id : Option Nat := none
  processes : List GPUProcessInfo := []
  is_free : Bool
  deriving DecidableEq, Repr

/-- One row of the `tasks` table (`_ensure_tables` in `task_manager.py`).
Timestamps are abstracted to `Nat` ticks; the JSON-serialized
`assigned_gpus` column is modelled as an already-parsed optional list. -/
structure TaskRow where
  id : Nat
  name : String
  gpu_type : String
  gpu_count : Nat
  command : String
  status : TaskStatus
  created_at : Nat
  started_at : Option Nat := none
  completed_at : Option Nat := none
  tmux_session : Option String := none
  assigned_gpus : Option (List Int) := none
  log_path : Option String := none
  exit_code : Option Int := none
  error : Option String := none
  deriving DecidableEq, Repr

/-- The in-memory record for a live task (`RunningTask` dataclass). -/
structure RunningTask where
  task_id : Nat
  session_name : String
  assigned_gpus : List Int
  log_path : String
  script_path : String
  exit_code_path : String
  started_at : Nat
  deriving DecidableEq, Repr

/-- `TaskCreate` from `schemas.py` (pydantic length/range constraints are
not needed by the claims and are left to hypotheses where relevant). -/
structure TaskCreate where
  name : String
  gpu_type : String
  gpu_count : Nat
  command : String
  conda_env : Option String := none
  deriving DecidableEq, Repr

/-- `TaskDetail` from `schemas.py`, as populated by
`TaskManager._row_to_detail`. -/
structure TaskDetail where
  id : Nat
  name : String
  status : TaskStatus
  gpu_type : String
  gpu_count : Nat
  command : String
  created_at : Nat
  started_at : Option Nat
  completed_at : Option Nat
  tmux_session : Option String
  assigned_gpus : List Int
  log_path : Option String
  exit_code : Option Int
  error : Option String
  deriving DecidableEq, Repr

/-- `TaskLogResponse` from `schemas.py`. -/
structure TaskLogResponse where
  task_id : Nat
  lines : List String
  truncated : Bool := false
  deriving DecidableEq, Repr

/-- The mutable state of a `TaskManager`: the `tasks` table, the queue
(head first), the running map (insertion-ordered, as a Python dict), and
the autoincrement counter of the store. -/
structure ManagerState where
  db : List TaskRow
  queue : List Nat
  running : List (Nat × RunningTask)
  next_id : Nat
  deriving DecidableEq, Repr

/-- External world of one scheduler tick: `launchResult id` is `some msg`
when the subprocess part of `_start_task` raises with message `msg` for
that task and `none` when it succeeds; `alive` is `tmux has-session`;
`fs` maps a path to the contents of the file there (`none` = missing);
`now` is the clock reading used for `_utc_now`. -/
structure TickEnv where
  launchResult : Nat → Option String
  alive : String → Bool
  fs : String → Option String
  now : Nat

/-! ### Character-level string helpers

Python's `str.strip`, `str.split(',')`, `int(...)`, `int(float(...))` and
text-file line iteration, re-implemented over `String.data` so they reduce
in the kernel. -/

/-- Split a character list at every occurrence of `sep` (the single-char
case of Python `str.split(sep)` / `line.split(",")`). -/
def splitChar (sep : Char) : List Char → List (List Char)
  | [] => [[]]
  | c :: rest =>
    match splitChar sep rest with
    | [] => [[c]]
    | h :: t => if c = sep then [] :: h :: t else (c :: h) :: t

/-- Python `str.strip()` with no argument: drop leading and trailing
whitespace (ASCII whitespace; the unicode extras Python also strips do
not occur in the modelled data). -/
def pyStrip (s : String) : String :=
  ⟨((s.data.dropWhile Char.isWhitespace).reverse.dropWhile Char.isWhitespace).reverse⟩

/-- Python `str.split(sep)` for a one-character separator. -/
def pySplit (s : String) (sep : Char) : List String :=
  (splitChar sep s.data).map String.mk

/-- Value of a digit string (caller guarantees all characters are digits). -/
def digitsToNat (l : List Char) : Nat :=
  l.foldl (fun n c => n * 10 + (c.toNat - '0'.toNat)) 0

/-- Python `int(s)` on an already-stripped string: optional sign followed
by at least one decimal digit (digit-group underscores and non-ASCII
digits, which never occur in the modelled data, are out of scope). -/
def pyIntOfChars : List Char → Option Int
  | '-' :: rest =>
    if rest ≠ [] ∧ rest.all Char.isDigit then some (-(digitsToNat rest : Int)) else none
  | '+' :: rest =>
    if rest ≠ [] ∧ rest.all Char.isDigit then some (digitsToNat rest : Int) else none
  | l =>
    if l ≠ [] ∧ l.all Char.isDigit then some (digitsToNat l : Int) else none

/-- Python `int(s)` (which itself ignores surrounding whitespace). -/
def pyInt (s : String) : Option Int :=
  pyIntOfChars (pyStrip s).data

/-- Python `int(float(s))` for the decimal numerals `nvidia-smi` emits:
optional sign, digits with at most one decimal point, truncated toward
zero (exponent notation and `inf`/`nan` forms are out of scope). -/
def pyFloatTrunc (l : List Char) : Option Int :=
  let signed : Int × List Char :=
    match l with
    | '-' :: rest => (-1, rest)
    | '+' :: rest => (1, rest)
    | _ => (1, l)
  match splitChar '.' signed.2 with
  | [a] =>
    if a ≠ [] ∧ a.all Char.isDigit then some (signed.1 * (digitsToNat a : Int)) else none
  | [a, b] =>
    if (a ≠ [] ∨ b ≠ []) ∧ a.all Char.isDigit ∧ b.all Char.isDigit then
      some (signed.1 * (digitsToNat a : Int))
    else none
  | _ => none

/-- The lines Python yields when iterating a text file and applying
`line.rstrip("\n")` to each: chunks delimited by newlines, where a
trailing newline does not open a final empty line. -/
def fileLines (s : String) : List String :=
  let parts := (splitChar '\n' s.data).map String.mk
  if parts.getLast? = some "" then parts.dropLast else parts

/-- Does the character sequence `p` occur inside the first list? -/
def containsSeq : List Char → List Char → Bool
  | _, [] => true
  | [], _ :: _ => false
  | c :: rest, p => List.isPrefixOf p (c :: rest) || containsSeq rest p

/-- Bool test that `pat` occurs inside `s` (Python `pat in s`). -/
def strContains (s pat : String) : Bool :=
  containsSeq s.data pat.data

/-! ### `gpu_monitor.py` -/

/-- Outcome of one `subprocess.run` invocation: the tool was absent
(`FileNotFoundError`), the invocation itself failed
(`subprocess.SubprocessError`, timeouts included), or the process ran and
produced an exit status, stdout and stderr. -/
inductive ProcResult where
  | notFound
  | subprocessError (msg : String)
  | ran (returncode : Int) (stdout : String) (stderr : String)

/-- `_parse_int` from `gpu_monitor.py`: strip, treat empty and `"N/A"` as
missing, otherwise `int(float(value))` with parse failures mapped to
`None`. -/
def parse_int (value : String) : Option Int :=
  let v := pyStrip value
  if v.data = [] ∨ v = "N/A" then none
  else pyFloatTrunc v.data

/-- Parse one line of the `--query-gpu` CSV output (the loop body in
`query_gpu_states`); `none` means the line is skipped. -/
def parseGpuLine (line : String) : Option GPUState :=
  let parts := (pySplit line ',').map pyStrip
  if parts.length < 3 then none
  else
    match parse_int (parts.headD "") with
    | none => none
    | some index =>
      some
        { index := index
          uuid := some ((parts.drop 1).headD "")
          name := (parts.drop 2).headD ""
          memory_total := if parts.length > 3 then parse_int ((parts.drop 3).headD "") else none
          memory_used := if parts.length > 4 then parse_int ((parts.drop 4).headD "") else none
          utilization_gpu := if parts.length > 5 then parse_int ((parts.drop 5).headD "") else none
          utilization_mem := if parts.length > 6 then parse_int ((parts.drop 6).headD "") else none
          processes := [] }

/-- The non-empty stripped lines of a stripped stdout block
(`result.stdout.strip().splitlines()` plus the comprehension filter). -/
def outputLines (stdout : String) : List String :=
  ((pySplit (pyStrip stdout) '\n').map pyStrip).filter (fun l => l ≠ "")

/-- Parse the whole `--query-gpu` stdout into GPU states. -/
def parseGpuStdout (stdout : String) : List GPUState :=
  (outputLines stdout).filterMap parseGpuLine

/-- Parse one line of the `--query-compute-apps` CSV output (loop body of
`_query_gpu_processes`). -/
def parseProcLine (username : Int → Option String) (line : String) :
    Option (String × GPUProcess) :=
  let parts := (pySplit line ',').map pyStrip
  if parts.length < 2 then none
  else
    let gpu_uuid := parts.headD ""
    match parse_int ((parts.drop 1).headD "") with
    | none => none
    | some pid =>
      if gpu_uuid = "" then none
      else
        some
          (gpu_uuid,
            { pid := pid
              name := if parts.length > 2 then (parts.drop 2).headD "" else ""
              used_memory := if parts.length > 3 then parse_int ((parts.drop 3).headD "") else none
              username := username pid })

/-- `_query_gpu_processes`: every failure path degrades to the empty
list; on success the per-line parse of stdout. -/
def query_gpu_processes (res : ProcResult) (username : Int → Option String) :
    List (String × GPUProcess) :=
  match res with
  | .notFound => []
  | .subprocessError _ => []
  | .ran rc out _ =>
    if rc ≠ 0 then []
    else (outputLines out).filterMap (parseProcLine username)

/-- Truthiness of an optional UUID (`if state.uuid` in Python). -/
def uuidTruthy (u : Option String) : Bool :=
  match u with
  | none => false
  | some s => s ≠ ""

/-- Append `p` to the process list of the state the
`states_by_uuid` dict maps `u` to — the LAST state in the list whose uuid
is truthy and equal to `u` (later dict-comprehension entries overwrite
earlier ones). -/
def attachOne (u : String) (p : GPUProcess) : List GPUState → List GPUState
  | [] => []
  | st :: rest =>
    if rest.any (fun s => uuidTruthy s.uuid && s.uuid == some u) then
      st :: attachOne u p rest
    else if uuidTruthy st.uuid && st.uuid == some u then
      { st with processes := st.processes ++ [p] } :: rest
    else
      st :: rest

/-- The process-attachment loop at the end of `query_gpu_states`. -/
def attachProcesses (states : List GPUState) (procs : List (String × GPUProcess)) :
    List GPUState :=
  match procs with
  | [] => states
  | _ =>
    procs.foldl (fun sts pr => attachOne pr.1 pr.2 sts) states

/-- `query_gpu_states` from `gpu_monitor.py`.  `gpuRes` is the outcome of
the `--query-gpu` invocation and `procRes` of the `--query-compute-apps`
invocation; `username` models the `ps` lookup.  `Except.error` is
`GPUQueryError`. -/
def query_gpu_states (gpuRes procRes : ProcResult) (username : Int → Option String) :
    Except String (List GPUState) :=
  match gpuRes with
  | .notFound => .ok []
  | .subprocessError msg => .error ("Failed to invoke nvidia-smi: " ++ msg)
  | .ran rc out err =>
    if rc ≠ 0 then
      let stderr := pyStrip err
      if strContains stderr "NVIDIA" || stderr ≠ "" then
        .error ("nvidia-smi returned non-zero exit status: " ++ stderr)
      else .ok []
    else
      .ok (attachProcesses (parseGpuStdout out) (query_gpu_processes procRes username))

/-- Does `query_gpu_states` raise `GPUQueryError`? -/
def raisesGPUQueryError (gpuRes procRes : ProcResult) (username : Int → Option String) :
    Bool :=
  match query_gpu_states gpuRes procRes username with
  | .ok _ => false
  | .error _ => true

/-! ### `task_manager.py`: store helpers -/

/-- `_fetch_one` with the `WHERE id = ?` queries: the first row of the
`tasks` table with the given id. -/
def fetch_one (db : List TaskRow) (task_id : Nat) : Option TaskRow :=
  db.find? (fun r => r.id = task_id)

/-- `_update_task_status`: `UPDATE tasks SET status = ?, error = ? WHERE
id = ?` followed by a commit. -/
def update_task_status (db : List TaskRow) (task_id : Nat) (status : TaskStatus)
    (error : Option String) : List TaskRow :=
  db.map (fun r => if r.id = task_id then { r with status := status, error := error } else r)

/-- `_update_task_completion`: set status, `completed_at = now`, exit
code and error for the row. -/
def update_task_completion (db : List TaskRow) (task_id : Nat) (status : TaskStatus)
    (now : Nat) (exit_code : Option Int) (error : Option String) : List TaskRow :=
  db.map (fun r =>
    if r.id = task_id then
      { r with status := status, completed_at := some now, exit_code := exit_code,
               error := error }
    else r)

/-- The store update inside `_start_task`: set status `running`,
`started_at`, `tmux_session`, `assigned_gpus` and `log_path`. -/
def update_launched (db : List TaskRow) (task_id : Nat) (now : Nat)
    (session : String) (assigned : List Int) (log_path : String) : List TaskRow :=
  db.map (fun r =>
    if r.id = task_id then
      { r with status := .running, started_at := some now, tmux_session := some session,
               assigned_gpus := some assigned, log_path := some log_path }
    else r)

/-- `_row_to_detail`: the detail view of a row
(`json.loads(assigned_gpus or "[]")` becomes `Option.getD`). -/
def row_to_detail (r : TaskRow) : TaskDetail :=
  { id := r.id, name := r.name, status := r.status, gpu_type := r.gpu_type,
    gpu_count := r.gpu_count, command := r.command, created_at := r.created_at,
    started_at := r.started_at, completed_at := r.completed_at,
    tmux_session := r.tmux_session, assigned_gpus := r.assigned_gpus.getD [],
    log_path := r.log_path, exit_code := r.exit_code, error := r.error }

/-! ### `task_manager.py`: launch phase -/

/-- Union of `assigned_gpus` over the running map (the `assigned_indices`
set comprehension in `_launch_tasks_if_possible`). -/
def runningIndices (running : List (Nat × RunningTask)) : List Int :=
  running.flatMap (fun p => p.2.assigned_gpus)

/-- `available_by_type.setdefault(state.name, []).append(state)`. -/
def addGpu (acc : List (String × List GPUState)) (g : GPUState) :
    List (String × List GPUState) :=
  if acc.any (fun p => p.1 = g.name) then
    acc.map (fun p => if p.1 = g.name then (p.1, p.2 ++ [g]) else p)
  else acc ++ [(g.name, [g])]

/-- The grouping loop of `_launch_tasks_if_possible`: skip GPUs whose
index is already assigned, group the rest by model name in snapshot
order. -/
def group_available (assigned : List Int) (gpus : List GPUState) :
    List (String × List GPUState) :=
  gpus.foldl (fun acc g => if g.index ∈ assigned then acc else addGpu acc g) []

/-- `available_by_type.get(gpu_type, [])`: the value of the first entry
carrying the key (the dict never holds two entries with one key). -/
def getType : List (String × List GPUState) → String → List GPUState
  | [], _ => []
  | p :: ps, t => if p.1 = t then p.2 else getType ps t

/-- `available_by_type[gpu_type] = candidates[need:]` (dict assignment:
replace when the key is present, append otherwise). -/
def setType (avail : List (String × List GPUState)) (t : String) (v : List GPUState) :
    List (String × List GPUState) :=
  if avail.any (fun p => p.1 = t) then
    avail.map (fun p => if p.1 = t then (p.1, v) else p)
  else avail ++ [(t, v)]

/-- `self._running[task_id] = running` (dict assignment). -/
def insertRunning (m : List (Nat × RunningTask)) (task_id : Nat) (rt : RunningTask) :
    List (Nat × RunningTask) :=
  if m.any (fun p => p.1 = task_id) then
    m.map (fun p => if p.1 = task_id then (p.1, rt) else p)
  else m ++ [(task_id, rt)]

/-- Per-task runtime directory `<runtime>/task_{id}`. -/
def taskDir (runtime_dir : String) (task_id : Nat) : String :=
  runtime_dir ++ "/task_" ++ toString task_id

/-- The `RunningTask` built by `_start_task` for task `task_id` with the
given assignment, rooted at `runtime_dir`. -/
def mkRunning (runtime_dir : String) (task_id : Nat) (assigned : List Int) (now : Nat) :
    RunningTask :=
  { task_id := task_id
    session_name := "task_" ++ toString task_id
    assigned_gpus := assigned
    log_path := taskDir runtime_dir task_id ++ "/tmux.log"
    script_path := taskDir runtime_dir task_id ++ "/run.sh"
    exit_code_path := taskDir runtime_dir task_id ++ "/exit_code"
    started_at := now }

/-- Result of the launch loop: the updated table, availability dict,
queue and running map. -/
structure LoopResult where
  db : List TaskRow
  avail : List (String × List GPUState)
  queue : List Nat
  running : List (Nat × RunningTask)
  deriving DecidableEq, Repr

/-- The `while self._queue and launched_any` loop of
`_launch_tasks_if_possible`.  Each iteration resets `launched_any`, so the
loop runs again only after a successful launch: the missing-row and
launcher-exception branches pop the head and then fall out of the loop,
and an unsatisfiable head leaves the queue untouched and falls out. -/
def launchLoop (env : TickEnv) (runtime_dir : String) :
    List TaskRow → List (String × List GPUState) → List (Nat × RunningTask) →
    List Nat → LoopResult
  | db, avail, running, [] => ⟨db, avail, [], running⟩
  | db, avail, running, task_id :: rest =>
    match fetch_one db task_id with
    | none => ⟨db, avail, rest, running⟩
    | some row =>
      let candidates := getType avail row.gpu_type
      if candidates.length < row.gpu_count then ⟨db, avail, task_id :: rest, running⟩
      else
        match env.launchResult task_id with
        | some msg =>
          ⟨update_task_status db task_id .failed (some ("Failed to launch task: " ++ msg)),
            avail, rest, running⟩
        | none =>
          let assigned := (candidates.take row.gpu_count).map (fun g => g.index)
          let session := "task_" ++ toString task_id
          let log_path := taskDir runtime_dir task_id ++ "/tmux.log"
          launchLoop env runtime_dir
            (update_launched db task_id env.now session assigned log_path)
            (setType avail row.gpu_type (candidates.drop row.gpu_count))
            (insertRunning running task_id (mkRunning runtime_dir task_id assigned env.now))
            rest

/-- `_launch_tasks_if_possible`, given the tick's GPU snapshot. -/
def launch_tasks_if_possible (env : TickEnv) (runtime_dir : String)
    (gpu_states : List GPUState) (s : ManagerState) : ManagerState :=
  if s.queue = [] then s
  else
    let assigned_indices := runningIndices s.running
    let avail := group_available assigned_indices gpu_states
    let r := launchLoop env runtime_dir s.db avail s.running s.queue
    { s with db := r.db, queue := r.queue, running := r.running }

/-! ### `task_manager.py`: reap phase -/

/-- `_read_exit_code`: `None` when the sentinel file is missing, its
stripped content is empty, or `int(...)` fails; the parsed code
otherwise. -/
def read_exit_code (fs : String → Option String) (path : String) : Option Int :=
  match fs path with
  | none => none
  | some content =>
    let c := pyStrip content
    if c = "" then none else pyInt c

/-- Status and error message `_refresh_running_tasks` derives from a read
exit code: `completed` exactly for 0, `failed` with the sentinel message
for a missing or unparseable code, `failed` with the exit status message
otherwise. -/
def reapOutcome (exit_code : Option Int) : TaskStatus × Option String :=
  match exit_code with
  | none => (.failed, some "Task terminated without reporting an exit code")
  | some k =>
    if k = 0 then (.completed, none)
    else (.failed, some ("Process exited with status " ++ toString k))

/-- The scan over `self._running.items()` in `_refresh_running_tasks`:
returns the updated table and the `completed` id list, in iteration
order. -/
def reapScan (env : TickEnv) : List (Nat × RunningTask) → List TaskRow →
    List TaskRow × List Nat
  | [], db => (db, [])
  | (task_id, rt) :: rest, db =>
    if env.alive rt.session_name then reapScan env rest db
    else
      let code := read_exit_code env.fs rt.exit_code_path
      let oc := reapOutcome code
      let r := reapScan env rest (update_task_completion db task_id oc.1 env.now code oc.2)
      (r.1, task_id :: r.2)

/-- `_refresh_running_tasks`: reap dead sessions, then pop each reaped id
from the running map. -/
def refresh_running_tasks (env : TickEnv) (s : ManagerState) : ManagerState :=
  if s.running = [] then s
  else
    let r := reapScan env s.running s.db
    { s with db := r.1,
             running := r.2.foldl (fun m i => m.filter (fun p => p.1 ≠ i)) s.running }

/-- One body of `_scheduler_loop`: launch phase, then reap phase. -/
def schedulerTick (env : TickEnv) (runtime_dir : String) (gpu_states : List GPUState)
    (s : ManagerState) : ManagerState :=
  refresh_running_tasks env (launch_tasks_if_possible env runtime_dir gpu_states s)

/-! ### `task_manager.py`: log tailing and GPU status -/

/-- `get_task_logs`: look the task up (KeyError when unknown), return an
empty response when no log path is recorded or the file is missing,
otherwise keep the last `tail` lines (the `deque(maxlen=tail)`) and set
`truncated` when `tail` is truthy and exactly `tail` lines were kept. -/
def get_task_logs (db : List TaskRow) (fs : String → Option String)
    (task_id : Nat) (tail : Nat) : Except String TaskLogResponse :=
  match fetch_one db task_id with
  | none => .error ("Task " ++ toString task_id ++ " not found")
  | some row =>
    match row.log_path with
    | none => .ok ⟨task_id, [], false⟩
    | some p =>
      if p = "" then .ok ⟨task_id, [], false⟩
      else
        match fs p with
        | none => .ok ⟨task_id, [], false⟩
        | some content =>
          let ls := fileLines content
          let kept := ls.drop (ls.length - tail)
          .ok ⟨task_id, kept, decide (tail ≠ 0 ∧ kept.length = tail)⟩

/-- `assigned_lookup[gpu_idx] = rt.task_id` (dict assignment). -/
def dictSet (m : List (Int × Nat)) (k : Int) (v : Nat) : List (Int × Nat) :=
  if m.any (fun q => q.1 = k) then m.map (fun q => if q.1 = k then (q.1, v) else q)
  else m ++ [(k, v)]

/-- The `assigned_lookup` dict built at the top of `get_gpu_status`. -/
def assignedLookup (running : List (Nat × RunningTask)) : List (Int × Nat) :=
  running.foldl (fun acc p => p.2.assigned_gpus.foldl (fun a i => dictSet a i p.1) acc) []

/-- `assigned_lookup.get(state.index)`. -/
def dictGet (m : List (Int × Nat)) (k : Int) : Option Nat :=
  (m.find? (fun q => q.1 = k)).map (fun q => q.2)

/-- `get_gpu_status`: one `GPUInfo` per snapshot GPU.  Only the fields
listed in the constructor call are populated; `uuid` and `processes` fall
back to the schema defaults. -/
def get_gpu_status (gpu_states : List GPUState) (running : List (Nat × RunningTask)) :
    List GPUInfo :=
  let lookup := assignedLookup running
  gpu_states.map (fun st =>
    { index := st.index
      name := st.name
      memory_total := st.memory_total
      memory_used := st.memory_used
      utilization_gpu := st.utilization_gpu
      utilization_mem := st.utilization_mem
      assigned_task_id := dictGet lookup st.index
      is_free := !(lookup.any (fun q => q.1 = st.index)) })

/-! ### `task_manager.py`: the wrapper script of `_start_task` -/

/-- The character class `shlex.quote` leaves unquoted: alphanumerics and
underscore, at-sign, percent, plus, equals, colon, comma, dot, slash,
hyphen. -/
def shlexSafe (c : Char) : Bool :=
  c.isAlphanum || c ∈ ['_', '@', '%', '+', '=', ':', ',', '.', '/', '-']

/-- `shlex.quote`: return safe strings as-is, otherwise wrap in single
quotes, escaping embedded single quotes. -/
def shlex_quote (s : String) : String :=
  if s = "" then "''"
  else if s.data.all shlexSafe then s
  else "'" ++ ⟨s.data.flatMap (fun c =>
    if c = '\'' then "'\"'\"'".data else [c])⟩ ++ "'"

/-- `",".join(str(idx) for idx in assigned_gpus)`. -/
def joinIndices : List Int → String
  | [] => ""
  | [i] => toString i
  | i :: rest => toString i ++ "," ++ joinIndices rest

/-- The `script_lines` list written by `_start_task` to `run.sh`: shebang,
`set -uo pipefail`, the `CUDA_VISIBLE_DEVICES` export when GPUs are
assigned, the quoted `cd`, the user command verbatim, and the exit-code
capture. -/
def buildScriptLines (workdir : String) (exit_code_path : String)
    (assigned_gpus : List Int) (command : String) : List String :=
  let assigned_str := joinIndices assigned_gpus
  ["#!/usr/bin/env bash", "set -uo pipefail"]
  ++ (if assigned_str ≠ "" then ["export CUDA_VISIBLE_DEVICES=" ++ assigned_str] else [])
  ++ ["cd " ++ shlex_quote workdir,
      command,
      "exit_code=$?",
      "echo $exit_code > \"" ++ exit_code_path ++ "\"",
      "exit $exit_code"]

/-! ### `task_manager.py`: startup recovery -/

/-- Stable insertion of a row into a list sorted by `created_at`. -/
def insertByCreated (r : TaskRow) : List TaskRow → List TaskRow
  | [] => [r]
  | x :: xs => if r.created_at ≤ x.created_at then r :: x :: xs else x :: insertByCreated r xs

/-- Sort rows by `created_at` ascending (the `ORDER BY created_at ASC`). -/
def sortByCreated : List TaskRow → List TaskRow
  | [] => []
  | x :: xs => insertByCreated x (sortByCreated xs)

/-- The `SELECT ... WHERE status IN (queued, running) ORDER BY created_at
ASC` of `_load_initial_state`. -/
def selectNonTerminal (db : List TaskRow) : List TaskRow :=
  sortByCreated (db.filter (fun r => r.status = .queued || r.status = .running))

/-- Truthiness of the recorded `tmux_session` (`if session and ...`). -/
def sessionTruthy (o : Option String) : Bool :=
  match o with
  | none => false
  | some s => s ≠ ""

/-- The `RunningTask` rebuilt for a recovered row: the existing runtime
paths under `runtime_dir`, the recorded session and assignment, and a
fresh `started_at` clock reading. -/
def mkRecovered (runtime_dir : String) (row : TaskRow) (session : String) (now : Nat) :
    RunningTask :=
  { task_id := row.id
    session_name := session
    assigned_gpus := row.assigned_gpus.getD []
    log_path := taskDir runtime_dir row.id ++ "/tmux.log"
    script_path := taskDir runtime_dir row.id ++ "/run.sh"
    exit_code_path := taskDir runtime_dir row.id ++ "/exit_code"
    started_at := now }

/-- The row loop of `_load_initial_state`: queued rows go to the queue
tail; running rows are re-adopted when their session is recorded and
live, and failed with "tmux session missing after restart" otherwise. -/
def load_initial_state (alive : String → Bool) (now : Nat) (runtime_dir : String)
    (s : ManagerState) : List TaskRow → ManagerState
  | [] => s
  | row :: rest =>
    let s' :=
      if row.status = .queued then { s with queue := s.queue ++ [row.id] }
      else
        match row.tmux_session with
        | some session =>
          if session ≠ "" ∧ alive session then
            let rt := mkRecovered runtime_dir row session now
            { s with running := insertRunning s.running row.id rt }
          else
            let db := update_task_completion s.db row.id .failed now none
              (some "tmux session missing after restart")
            { s with db := db }
        | none =>
          let db := update_task_completion s.db row.id .failed now none
            (some "tmux session missing after restart")
          { s with db := db }
    load_initial_state alive now runtime_dir s' rest

/-- `start()`: run `_load_initial_state` over the persisted non-terminal
rows in `created_at` order. -/
def startRecovery (alive : String → Bool) (now : Nat) (runtime_dir : String)
    (s : ManagerState) : ManagerState :=
  load_initial_state alive now runtime_dir s (selectNonTerminal s.db)

/-! ### `task_manager.py`: create, and the spec-modelled cancel -/

/-- `create_task`: validate the GPU type against the snapshot, insert a
queued row, append the new id to the queue.  `Except.error` carries the
`ValueError` message. -/
def create_task (gpu_states : List GPUState) (now : Nat) (payload : TaskCreate)
    (s : ManagerState) : Except String (ManagerState × Nat) :=
  if gpu_states.map (fun g => g.name) = [] then
    .error "No GPUs detected on this host"
  else if payload.gpu_type ∉ gpu_states.map (fun g => g.name) then
    .error ("GPU type '" ++ payload.gpu_type ++ "' not detected on this host")
  else
    let row : TaskRow :=
      { id := s.next_id, name := payload.name, gpu_type := payload.gpu_type,
        gpu_count := payload.gpu_count, command := payload.command,
        status := .queued, created_at := now }
    let s' := { s with db := s.db ++ [row], queue := s.queue ++ [s.next_id], next_id := s.next_id + 1 }
    .ok (s', s.next_id)

/-- Error kinds raised by the manager facade (`KeyError` maps to 404,
`ValueError` to 400). -/
inductive ApiError where
  | NotFound
  | Invalid
  deriving DecidableEq, Repr

/-- Modelled from the spec: `TaskManager.cancel_task` is absent from the
source tree — only its HTTP caller (`POST /api/tasks/{id}/cancel` in
`main.py`) exists.  Per section 4.6 of the specification: a `queued` task
is removed from the queue and marked `cancelled`; a `running` task has
its session killed and is marked `cancelled` with `completed_at = now()`
(short-circuiting the reap phase, so the task also leaves the running
map); a terminal task fails with `Invalid`; an unknown id with
`NotFound`; the post-state detail view is returned.  The second component
of the result is the list of session names passed to the session host's
kill operation. -/
def cancel_task (s : ManagerState) (now : Nat) (task_id : Nat) :
    Except ApiError (ManagerState × List String × TaskDetail) :=
  match fetch_one s.db task_id with
  | none => .error .NotFound
  | some row =>
    match row.status with
    | .queued =>
      let db := update_task_status s.db task_id .cancelled row.error
      let s' := { s with db := db, queue := s.queue.erase task_id }
      match fetch_one db task_id with
      | some row' => .ok (s', [], row_to_detail row')
      | none => .error .NotFound
    | .running =>
      let killed := match row.tmux_session with
        | some session => [session]
        | none => []
      let db := update_task_completion s.db task_id .cancelled now row.exit_code row.error
      let s' := { s with db := db, running := s.running.filter (fun p => p.1 ≠ task_id) }
      match fetch_one db task_id with
      | some row' => .ok (s', killed, row_to_detail row')
      | none => .error .NotFound
    | _ => .error .Invalid

/-! ### Operation sequences over a manager -/

/-- One externally triggered operation against a manager: an HTTP create,
an HTTP cancel, or one scheduler tick with its snapshot and external
world. -/
inductive Op where
  | create (payload : TaskCreate) (gpu_states : List GPUState) (now : Nat)
  | cancel (task_id : Nat) (now : Nat)
  | tick (gpu_states : List GPUState) (env : TickEnv)

/-- Apply one operation; HTTP errors leave the state unchanged. -/
def applyOp (runtime_dir : String) (s : ManagerState) : Op → ManagerState
  | .create payload gpu_states now =>
    match create_task gpu_states now payload s with
    | .ok r => r.1
    | .error _ => s
  | .cancel task_id now =>
    match cancel_task s now task_id with
    | .ok r => r.1
    | .error _ => s
  | .tick gpu_states env => schedulerTick env runtime_dir gpu_states s

/-- Apply a sequence of operations. -/
def applyOps (runtime_dir : String) (s : ManagerState) (ops : List Op) : ManagerState :=
  ops.foldl (applyOp runtime_dir) s

/-- A physically meaningful GPU snapshot: one entry per device, so the
indices are pairwise distinct (section 4.1 of the specification). -/
def snapshotOk (gpus : List GPUState) : Bool :=
  (gpus.map (fun g => g.index)).Nodup

/-- Every tick of the sequence was given a physically meaningful
snapshot. -/
def opOk : Op → Bool
  | .tick gpus _ => snapshotOk gpus
  | _ => true

/-- The manager state at process start: empty table, queue and running
map (`next_id` starts at 1, as sqlite's rowid does). -/
def initState : ManagerState :=
  { db := [], queue := [], running := [], next_id := 1 }

/-- Pairwise disjointness of the assigned-GPU sets across the running
map. -/
def PairwiseDisjointRunning (running : List (Nat × RunningTask)) : Prop :=
  running.Pairwise (fun a b => ∀ x ∈ a.2.assigned_gpus, x ∉ b.2.assigned_gpus)

/-- The GPUs of model `t` in the snapshot whose index is not assigned to
any running task: the pool the launch phase may draw on for `t`. -/
def freeOfType (assigned : List Int) (gpus : List GPUState) (t : String) : List GPUState :=
  gpus.filter (fun g => !decide (g.index ∈ assigned) && decide (g.name = t))

/-- Claim C3 as stated: after the launcher throws for the queue head, the
task is marked failed with the exception message, the head is popped, and
the launch phase continues with the new head in the same tick. -/
def launchContinuesAfterFailure : Prop :=
  ∀ (env : TickEnv) (runtime_dir : String) (db : List TaskRow)
    (avail : List (String × List GPUState)) (running : List (Nat × RunningTask))
    (task_id : Nat) (rest : List Nat) (row : TaskRow) (msg : String),
    fetch_one db task_id = some row →
    ¬ (getType avail row.gpu_type).length < row.gpu_count →
    env.launchResult task_id = some msg →
    launchLoop env runtime_dir db avail running (task_id :: rest) =
      launchLoop env runtime_dir
        (update_task_status db task_id .failed (some ("Failed to launch task: " ++ msg)))
        avail running rest

/-- Claim C9 as stated: `query_gpu_states` raises `GPUQueryError` exactly
when the subprocess invocation itself fails (other than the tool being
absent) or when a non-zero exit comes with non-empty stderr. -/
def gpuQueryRaisesIffClaim : Prop :=
  ∀ (gpuRes procRes : ProcResult) (username : Int → Option String),
    raisesGPUQueryError gpuRes procRes username = true ↔
      ((∃ m, gpuRes = .subprocessError m) ∨
       (∃ rc out err, gpuRes = .ran rc out err ∧ rc ≠ 0 ∧ err ≠ ""))

/-! ### Concrete fixtures used by the witness theorems -/

/-- A snapshot GPU that reports both a UUID and a compute process. -/
def gpuWithUuid : GPUState :=
  { index := 0, name := "A100", uuid := some "GPU-abc", memory_total := some 81920,
    memory_used := some 512, utilization_gpu := some 5, utilization_mem := some 1,
    processes := [{ pid := 123, name := "python", used_memory := some 500,
                    username := some "bob" }] }

/-- A running task occupying GPU 0 under session `task_4`. -/
def rtOnGpu0 : RunningTask :=
  { task_id := 4, session_name := "task_4", assigned_gpus := [0],
    log_path := "/rt/task_4/tmux.log", script_path := "/rt/task_4/run.sh",
    exit_code_path := "/rt/task_4/exit_code", started_at := 3 }

/-- A task row that has a recorded log path. -/
def logRow : TaskRow :=
  { id := 1, name := "t1", gpu_type := "A100", gpu_count := 1, command := "c",
    status := .running, created_at := 1, started_at := some 2,
    tmux_session := some "task_1", assigned_gpus := some [0],
    log_path := some "/rt/task_1/tmux.log" }

/-- A filesystem holding a three-line log for `logRow`. -/
def logFs : String → Option String :=
  fun p => if p = "/rt/task_1/tmux.log" then some "alpha\nbeta\ngamma\n" else none

/-- A tick environment in which every session is gone and the task-9
sentinel file holds ` 3 `. -/
def reapEnv : TickEnv :=
  { launchResult := fun _ => none, alive := fun _ => false,
    fs := fun p => if p = "/rt/task_9/exit_code" then some " 3 \n" else none, now := 20 }

/-- The in-memory record of running task 9. -/
def rt9 : RunningTask :=
  { task_id := 9, session_name := "task_9", assigned_gpus := [0],
    log_path := "/rt/task_9/tmux.log", script_path := "/rt/task_9/run.sh",
    exit_code_path := "/rt/task_9/exit_code", started_at := 8 }

/-- A manager state with task 9 running. -/
def reapState : ManagerState :=
  { db := [{ id := 9, name := "t9", gpu_type := "A100", gpu_count := 1, command := "c",
             status := .running, created_at := 1, started_at := some 8,
             tmux_session := some "task_9", assigned_gpus := some [0],
             log_path := some "/rt/task_9/tmux.log" }],
    queue := [], running := [(9, rt9)], next_id := 10 }

/-- The row of running task 4, used for the cancellation contract. -/
def cancelRow : TaskRow :=
  { id := 4, name := "t4", gpu_type := "A100", gpu_count := 1, command := "c",
    status := .running, created_at := 1, started_at := some 2,
    tmux_session := some "task_4", assigned_gpus := some [0],
    log_path := some "/rt/task_4/tmux.log" }

/-- A manager state with task 4 running under session `task_4`. -/
def cancelState : ManagerState :=
  { db := [cancelRow], queue := [], running := [(4, rtOnGpu0)], next_id := 5 }

/-- Rows for the startup-recovery fixture: one queued task and two
running tasks, one with a live session and one with a dead one. -/
def recRow1 : TaskRow :=
  { id := 1, name := "q", gpu_type := "A100", gpu_count := 1, command := "c",
    status := .queued, created_at := 5 }

def recRow2 : TaskRow :=
  { id := 2, name := "r2", gpu_type := "A100", gpu_count := 1, command := "c",
    status := .running, created_at := 3, started_at := some 3,
    tmux_session := some "task_2", assigned_gpus := some [0],
    log_path := some "/rt/task_2/tmux.log" }

def recRow3 : TaskRow :=
  { id := 3, name := "r3", gpu_type := "A100", gpu_count := 1, command := "c",
    status := .running, created_at := 4, started_at := some 4,
    tmux_session := some "task_3", assigned_gpus := some [1],
    log_path := some "/rt/task_3/tmux.log" }

/-- A freshly restarted manager holding the three fixture rows. -/
def recoveryState : ManagerState :=
  { db := [recRow1, recRow2, recRow3], queue := [], running := [], next_id := 4 }

/-- On the fixture host only session `task_2` survived the restart. -/
def recoveryAlive : String → Bool :=
  fun session => session == "task_2"

/-- The invariant carried through the launch loop: the running map is
pairwise disjoint with distinct keys, each per-type pool holds distinct
indices, pools of different types never share an index, and no pooled
index is owned by a running task. -/
def LoopInv (avail : List (String × List GPUState))
    (running : List (Nat × RunningTask)) : Prop :=
  PairwiseDisjointRunning running ∧
  (running.map Prod.fst).Nodup ∧
  (∀ t, ((getType avail t).map (fun g => g.index)).Nodup) ∧
  (∀ t u, t ≠ u → ∀ g ∈ getType avail t, ∀ g2 ∈ getType avail u, g.index ≠ g2.index) ∧
  (∀ t, ∀ g ∈ getType avail t, g.index ∉ runningIndices running)

/-! ### Store lemmas -/

theorem fetch_one_map_self (db : List TaskRow) (task_id : Nat) (f : TaskRow → TaskRow)
    (hf : ∀ r, (f r).id = r.id) :
    fetch_one (db.map (fun r => if r.id = task_id then f r else r)) task_id =
      (fetch_one db task_id).map f := by
  induction db with
  | nil => rfl
  | cons r rest ih =>
    unfold fetch_one at ih ⊢
    by_cases h : r.id = task_id
    · rw [List.map_cons, if_pos h, List.find?_cons_of_pos _ (by simp [hf, h]),
        List.find?_cons_of_pos _ (by simp [h])]
      rfl
    · rw [List.map_cons, if_neg h, List.find?_cons_of_neg _ (by simp [h]),
        List.find?_cons_of_neg _ (by simp [h]), ih]

theorem fetch_one_map_ne (db : List TaskRow) (task_id other : Nat) (f : TaskRow → TaskRow)
    (hf : ∀ r, (f r).id = r.id) (hne : other ≠ task_id) :
    fetch_one (db.map (fun r => if r.id = task_id then f r else r)) other =
      fetch_one db other := by
  induction db with
  | nil => rfl
  | cons r rest ih =>
    unfold fetch_one at ih ⊢
    by_cases h : r.id = task_id
    · have hno : ¬ (f r).id = other := by
        rw [hf, h]
        exact fun hh => hne hh.symm
      have hno2 : ¬ r.id = other := by
        rw [h]
        exact fun hh => hne hh.symm
      rw [List.map_cons, if_pos h, List.find?_cons_of_neg _ (by simp [hno]),
        List.find?_cons_of_neg _ (by simp [hno2]), ih]
    · by_cases h2 : r.id = other
      · rw [List.map_cons, if_neg h, List.find?_cons_of_pos _ (by simp [h2]),
          List.find?_cons_of_pos _ (by simp [h2])]
      · rw [List.map_cons, if_neg h, List.find?_cons_of_neg _ (by simp [h2]),
          List.find?_cons_of_neg _ (by simp [h2]), ih]

theorem fetch_update_status_self (db : List TaskRow) (task_id : Nat) (st : TaskStatus)
    (e : Option String) :
    fetch_one (update_task_status db task_id st e) task_id =
      (fetch_one db task_id).map (fun r => { r with status := st, error := e }) :=
  fetch_one_map_self db task_id _ (fun _ => rfl)

theorem fetch_update_status_ne (db : List TaskRow) (task_id other : Nat) (st : TaskStatus)
    (e : Option String) (hne : other ≠ task_id) :
    fetch_one (update_task_status db task_id st e) other = fetch_one db other :=
  fetch_one_map_ne db task_id other _ (fun _ => rfl) hne

theorem fetch_update_completion_self (db : List TaskRow) (task_id : Nat) (st : TaskStatus)
    (now : Nat) (c : Option Int) (e : Option String) :
    fetch_one (update_task_completion db task_id st now c e) task_id =
      (fetch_one db task_id).map (fun r =>
        { r with status := st, completed_at := some now, exit_code := c, error := e }) :=
  fetch_one_map_self db task_id _ (fun _ => rfl)

theorem fetch_update_completion_ne (db : List TaskRow) (task_id other : Nat) (st : TaskStatus)
    (now : Nat) (c : Option Int) (e : Option String) (hne : other ≠ task_id) :
    fetch_one (update_task_completion db task_id st now c e) other = fetch_one db other :=
  fetch_one_map_ne db task_id other _ (fun _ => rfl) hne

theorem fetch_update_launched_ne (db : List TaskRow) (task_id other : Nat) (now : Nat)
    (sn : String) (assigned : List Int) (lp : String) (hne : other ≠ task_id) :
    fetch_one (update_launched db task_id now sn assigned lp) other = fetch_one db other :=
  fetch_one_map_ne db task_id other _ (fun _ => rfl) hne

/-! ### Availability-dict lemmas -/

theorem getType_eq_nil_of_not_any (avail : List (String × List GPUState)) (t : String)
    (h : avail.any (fun p => p.1 = t) = false) : getType avail t = [] := by
  induction avail with
  | nil => rfl
  | cons p ps ih =>
    simp only [List.any_cons, Bool.or_eq_false_iff, decide_eq_false_iff_not] at h
    simp [getType, h.1, ih h.2]

theorem getType_append_single (l : List (String × List GPUState)) (k : String)
    (v : List GPUState) (t : String) :
    getType (l ++ [(k, v)]) t =
      if l.any (fun p => p.1 = t) then getType l t else if k = t then v else [] := by
  induction l with
  | nil => simp [getType]
  | cons p ps ih =>
    by_cases h : p.1 = t
    · have hd : decide (p.1 = t) = true := by simp [h]
      simp only [List.cons_append, getType, if_pos h, List.any_cons, hd, Bool.true_or,
        if_true]
    · have hd : decide (p.1 = t) = false := by simp [h]
      simp only [List.cons_append, getType, if_neg h, List.any_cons, hd, Bool.false_or]
      exact ih

theorem getType_bumpAppend (l : List (String × List GPUState)) (g : GPUState) (t : String) :
    getType (l.map (fun p => if p.1 = g.name then (p.1, p.2 ++ [g]) else p)) t =
      if l.any (fun p => p.1 = t) ∧ t = g.name then getType l t ++ [g] else getType l t := by
  induction l with
  | nil => simp [getType]
  | cons p ps ih =>
    by_cases h : p.1 = t
    · have hd : decide (p.1 = t) = true := by simp [h]
      by_cases hk : p.1 = g.name
      · have ht : t = g.name := h ▸ hk
        have h2 : ((p.1, p.2 ++ [g]) : String × List GPUState).1 = t := h
        simp only [List.map_cons, if_pos hk, getType, if_pos h2, if_pos h,
          List.any_cons, hd, Bool.true_or, true_and, if_pos ht]
      · have ht : ¬ t = g.name := fun hc => hk (h ▸ hc)
        simp only [List.map_cons, if_neg hk, getType, if_pos h, List.any_cons, hd,
          Bool.true_or, true_and, if_neg ht]
    · have hd : decide (p.1 = t) = false := by simp [h]
      by_cases hk : p.1 = g.name
      · have h2 : ¬ ((p.1, p.2 ++ [g]) : String × List GPUState).1 = t := h
        simp only [List.map_cons, if_pos hk, getType, if_neg h2, if_neg h,
          List.any_cons, hd, Bool.false_or]
        exact ih
      · simp only [List.map_cons, if_neg hk, getType, if_neg h, List.any_cons, hd,
          Bool.false_or]
        exact ih

theorem getType_bumpSet (l : List (String × List GPUState)) (t : String)
    (v : List GPUState) (u : String) :
    getType (l.map (fun p => if p.1 = t then (p.1, v) else p)) u =
      if l.any (fun p => p.1 = u) ∧ u = t then v else getType l u := by
  induction l with
  | nil => simp [getType]
  | cons p ps ih =>
    by_cases h : p.1 = u
    · have hd : decide (p.1 = u) = true := by simp [h]
      by_cases hk : p.1 = t
      · have ht : u = t := h ▸ hk
        have h2 : ((p.1, v) : String × List GPUState).1 = u := h
        simp only [List.map_cons, if_pos hk, getType, if_pos h2, if_pos h,
          List.any_cons, hd, Bool.true_or, true_and, if_pos ht]
      · have ht : ¬ u = t := fun hc => hk (h ▸ hc)
        simp only [List.map_cons, if_neg hk, getType, if_pos h, List.any_cons, hd,
          Bool.true_or, true_and, if_neg ht]
    · have hd : decide (p.1 = u) = false := by simp [h]
      by_cases hk : p.1 = t
      · have h2 : ¬ ((p.1, v) : String × List GPUState).1 = u := h
        simp only [List.map_cons, if_pos hk, getType, if_neg h2, if_neg h,
          List.any_cons, hd, Bool.false_or]
        exact ih
      · simp only [List.map_cons, if_neg hk, getType, if_neg h, List.any_cons, hd,
          Bool.false_or]
        exact ih

theorem getType_addGpu (acc : List (String × List GPUState)) (g : GPUState) (t : String) :
    getType (addGpu acc g) t = getType acc t ++ (if g.name = t then [g] else []) := by
  unfold addGpu
  by_cases h : acc.any (fun p => p.1 = g.name)
  · rw [if_pos h, getType_bumpAppend]
    by_cases ht : t = g.name
    · have ht2 : g.name = t := ht.symm
      subst ht
      simp [h]
    · have ht2 : ¬ g.name = t := fun hc => ht hc.symm
      simp [ht, ht2]
  · rw [if_neg h, getType_append_single]
    rw [Bool.not_eq_true] at h
    by_cases ht : g.name = t
    · subst ht
      simp [h, getType_eq_nil_of_not_any acc g.name h]
    · by_cases hany : acc.any (fun p => p.1 = t)
      · simp [hany, ht]
      · rw [Bool.not_eq_true] at hany
        simp [hany, ht, getType_eq_nil_of_not_any acc t hany]

theorem getType_group (assigned : List Int) (gpus : List GPUState) (t : String) :
    getType (group_available assigned gpus) t = freeOfType assigned gpus t := by
  suffices h : ∀ acc : List (String × List GPUState),
      getType (gpus.foldl (fun acc g => if g.index ∈ assigned then acc else addGpu acc g) acc) t
        = getType acc t ++ freeOfType assigned gpus t by
    simpa [group_available, getType] using h []
  induction gpus with
  | nil => intro acc; simp [freeOfType]
  | cons g rest ih =>
    intro acc
    by_cases hg : g.index ∈ assigned
    · rw [List.foldl_cons, if_pos hg, ih]
      simp [freeOfType, List.filter_cons, hg]
    · rw [List.foldl_cons, if_neg hg, ih, getType_addGpu]
      by_cases ht : g.name = t <;>
        simp [freeOfType, List.filter_cons, hg, ht]

theorem getType_setType (avail : List (String × List GPUState)) (t : String)
    (v : List GPUState) (u : String) :
    getType (setType avail t v) u = if u = t then v else getType avail u := by
  unfold setType
  by_cases h : avail.any (fun p => p.1 = t)
  · rw [if_pos h, getType_bumpSet]
    by_cases hu : u = t
    · subst hu
      simp [h]
    · simp [hu]
  · rw [if_neg h, getType_append_single]
    by_cases hu : u = t
    · subst hu
      rw [Bool.not_eq_true] at h
      simp [h, getType_eq_nil_of_not_any avail u h]
    · by_cases hany : avail.any (fun p => p.1 = u)
      · simp [hany, hu]
      · have hu2 : ¬ t = u := fun hc => hu hc.symm
        rw [Bool.not_eq_true] at hany
        simp [hany, hu, hu2, getType_eq_nil_of_not_any avail u hany]

/-! ### Launch-loop stopping lemmas -/

theorem launchLoop_blocked (env : TickEnv) (runtime_dir : String) (db : List TaskRow)
    (avail : List (String × List GPUState)) (running : List (Nat × RunningTask))
    (task_id : Nat) (rest : List Nat) (row : TaskRow)
    (hrow : fetch_one db task_id = some row)
    (hblock : (getType avail row.gpu_type).length < row.gpu_count) :
    launchLoop env runtime_dir db avail running (task_id :: rest) =
      ⟨db, avail, task_id :: rest, running⟩ := by
  simp [launchLoop, hrow, hblock]

/-- C2: in every launch phase (and at every iteration of its loop), a
queue head whose `gpu_count` exceeds the free GPUs of its `gpu_type`
stops the phase: nothing is launched and no later queued task is
examined. -/
theorem C2_strict_head_of_line_blocking (env : TickEnv) (runtime_dir : String)
    (gpus : List GPUState) (s : ManagerState) (task_id : Nat) (rest : List Nat)
    (row : TaskRow)
    (hq : s.queue = task_id :: rest)
    (hrow : fetch_one s.db task_id = some row)
    (hblock : (freeOfType (runningIndices s.running) gpus row.gpu_type).length <
      row.gpu_count) :
    launch_tasks_if_possible env runtime_dir gpus s = s ∧
    (∀ (db : List TaskRow) (avail : List (String × List GPUState))
       (running : List (Nat × RunningTask)),
       fetch_one db task_id = some row →
       (getType avail row.gpu_type).length < row.gpu_count →
       launchLoop env runtime_dir db avail running (task_id :: rest) =
         ⟨db, avail, task_id :: rest, running⟩) := by
  refine ⟨?_, fun db avail running h1 h2 => launchLoop_blocked _ _ _ _ _ _ _ _ h1 h2⟩
  have hb2 : (getType (group_available (runningIndices s.running) gpus)
      row.gpu_type).length < row.gpu_count := by
    rw [getType_group]
    exact hblock
  obtain ⟨sdb, squeue, srunning, snext⟩ := s
  simp only at hq hrow hb2
  subst hq
  simp only [launch_tasks_if_possible,
    launchLoop_blocked env runtime_dir sdb (group_available (runningIndices srunning) gpus)
      srunning task_id rest row hrow hb2]
  rw [if_neg (by simp : ¬ (task_id :: rest = []))]

theorem C2_strict_head_of_line_blocking_witness :
    launch_tasks_if_possible
      { launchResult := fun _ => none, alive := fun _ => true, fs := fun _ => none, now := 7 }
      "/rt" [{ index := 0, name := "A100" }, { index := 1, name := "A100" }]
      { db := [{ id := 1, name := "t1", gpu_type := "A100", gpu_count := 4, command := "c",
                 status := .queued, created_at := 1 }],
        queue := [1], running := [], next_id := 2 } =
      { db := [{ id := 1, name := "t1", gpu_type := "A100", gpu_count := 4, command := "c",
                 status := .queued, created_at := 1 }],
        queue := [1], running := [], next_id := 2 } :=
  (C2_strict_head_of_line_blocking _ "/rt" _ _ 1 []
    { id := 1, name := "t1", gpu_type := "A100", gpu_count := 4, command := "c",
      status := .queued, created_at := 1 }
    rfl (by decide) (by decide)).1

/-- C3 counterexample: the claim "after a launcher exception the launch
phase pops the head and continues with the new head in the same tick" is
false; with one free GPU, a failing head task 1 and a launchable task 2
behind it, the loop stops after popping task 1 and task 2 stays queued,
whereas continuing would launch it. -/
theorem C3_counterexample : ¬ launchContinuesAfterFailure := by
  intro h
  have h2 := h
    { launchResult := fun i => if i = 1 then some "boom" else none,
      alive := fun _ => true, fs := fun _ => none, now := 10 }
    "/rt"
    [{ id := 1, name := "t", gpu_type := "A100", gpu_count := 1, command := "c",
       status := .queued, created_at := 1 },
     { id := 2, name := "t", gpu_type := "A100", gpu_count := 1, command := "c",
       status := .queued, created_at := 2 }]
    (group_available [] [{ index := 0, name := "A100" }])
    [] 1 [2]
    { id := 1, name := "t", gpu_type := "A100", gpu_count := 1, command := "c",
      status := .queued, created_at := 1 }
    "boom" (by decide) (by decide) (by decide)
  exact absurd h2 (by decide)

/-- C3 (amended): when the launcher throws for the queue head, the task
is marked `failed` with the exception message inside its `error` field
and the head is popped, but the launch phase then stops for that tick
without examining the new queue head; likewise it stops after popping a
head whose row has disappeared.  The next head is only examined on the
next tick. -/
theorem C3_launch_failure_pops_then_stops (env : TickEnv) (runtime_dir : String)
    (db : List TaskRow) (avail : List (String × List GPUState))
    (running : List (Nat × RunningTask)) (task_id : Nat) (rest : List Nat) :
    (∀ (row : TaskRow) (msg : String),
      fetch_one db task_id = some row →
      ¬ (getType avail row.gpu_type).length < row.gpu_count →
      env.launchResult task_id = some msg →
      launchLoop env runtime_dir db avail running (task_id :: rest) =
        ⟨update_task_status db task_id .failed (some ("Failed to launch task: " ++ msg)),
          avail, rest, running⟩) ∧
    (fetch_one db task_id = none →
      launchLoop env runtime_dir db avail running (task_id :: rest) =
        ⟨db, avail, rest, running⟩) := by
  constructor
  · intro row msg h1 h2 h3
    simp [launchLoop, h1, h2, h3]
  · intro h1
    simp [launchLoop, h1]

theorem C3_launch_failure_pops_then_stops_witness :
    launchLoop
      { launchResult := fun _ => some "boom", alive := fun _ => true,
        fs := fun _ => none, now := 5 }
      "/rt"
      [{ id := 1, name := "t", gpu_type := "A100", gpu_count := 1, command := "c",
         status := .queued, created_at := 1 }]
      (group_available [] [{ index := 0, name := "A100" }]) [] (1 :: [2]) =
      ⟨update_task_status
          [{ id := 1, name := "t", gpu_type := "A100", gpu_count := 1, command := "c",
             status := .queued, created_at := 1 }]
          1 .failed (some ("Failed to launch task: " ++ "boom")),
        group_available [] [{ index := 0, name := "A100" }], [2], []⟩ :=
  (C3_launch_failure_pops_then_stops _ "/rt" _ _ [] 1 [2]).1
    { id := 1, name := "t", gpu_type := "A100", gpu_count := 1, command := "c",
      status := .queued, created_at := 1 }
    "boom" (by decide) (by decide) (by decide)

/-- C7 (code evaluation at the failing input): the wrapper script
`_start_task` writes for a task contains no conda activation lines at
all — the user command directly follows the `cd` line — even though the
schema carries `conda_env` and `main.py` configures an activation-script
path.  The line list is exactly shebang, `set -uo pipefail`, the
`CUDA_VISIBLE_DEVICES` export, `cd`, the command, and the exit-code
capture. -/
theorem C7_wrapper_has_no_activation_lines :
    buildScriptLines "/home/user/project" "/runtime/task_3/exit_code" [0, 1]
        "python train.py" =
      ["#!/usr/bin/env bash", "set -uo pipefail", "export CUDA_VISIBLE_DEVICES=0,1",
       "cd /home/user/project", "python train.py", "exit_code=$?",
       "echo $exit_code > \"/runtime/task_3/exit_code\"", "exit $exit_code"] := by
  decide

/-- C9 counterexample: `query_gpu_states` does NOT raise for every
non-zero exit with non-empty stderr — stderr `" "` is non-empty, yet the
code strips it first and returns the empty list. -/
theorem C9_counterexample : ¬ gpuQueryRaisesIffClaim := by
  intro h
  have h2 := (h (.ran 1 "" " ") .notFound (fun _ => none)).mpr
    (Or.inr ⟨1, "", " ", rfl, by decide, by decide⟩)
  exact absurd h2 (by decide)

/-- C9 (amended): `query_gpu_states` raises `GPUQueryError` exactly when
the subprocess invocation itself fails (other than the tool being
absent), or when a non-zero exit comes with stderr that is non-empty
after stripping whitespace; a non-zero exit whose stderr strips to empty
yields the empty list. -/
theorem C9_raises_iff_stripped_stderr_nonempty (gpuRes procRes : ProcResult)
    (username : Int → Option String) :
    (raisesGPUQueryError gpuRes procRes username = true ↔
      ((∃ m, gpuRes = .subprocessError m) ∨
       (∃ rc out err, gpuRes = .ran rc out err ∧ rc ≠ 0 ∧ pyStrip err ≠ ""))) ∧
    (∀ rc out err, gpuRes = .ran rc out err → rc ≠ 0 → pyStrip err = "" →
      query_gpu_states gpuRes procRes username = .ok []) := by
  constructor
  · cases gpuRes with
    | notFound => simp [raisesGPUQueryError, query_gpu_states]
    | subprocessError m => simp [raisesGPUQueryError, query_gpu_states]
    | ran rc out err =>
      by_cases hrc : rc = 0
      · subst hrc
        simp [raisesGPUQueryError, query_gpu_states]
      · by_cases he : pyStrip err = ""
        · have hc : strContains "" "NVIDIA" = false := by decide
          simp [raisesGPUQueryError, query_gpu_states, hrc, he, hc]
        · simp [raisesGPUQueryError, query_gpu_states, hrc, he]
          exact ⟨rc, out, err, ⟨rfl, rfl, rfl⟩, hrc, he⟩
  · intro rc out err hg hrc he
    subst hg
    have hc : strContains "" "NVIDIA" = false := by decide
    simp [query_gpu_states, hrc, he, hc]

/-- C10: every `GPUInfo` produced by `get_gpu_status` has `uuid = none`
and an empty `processes` list — even when the probe reported a UUID or
compute processes for that GPU — and its remaining fields are populated
from some snapshot GPU together with the scheduler's assignment
lookup. -/
theorem C10_gpu_status_drops_uuid_and_processes (gpu_states : List GPUState)
    (running : List (Nat × RunningTask)) (info : GPUInfo)
    (h : info ∈ get_gpu_status gpu_states running) :
    info.uuid = none ∧ info.processes = [] ∧
      ∃ st ∈ gpu_states,
        info.index = st.index ∧ info.name = st.name ∧
        info.memory_total = st.memory_total ∧ info.memory_used = st.memory_used ∧
        info.utilization_gpu = st.utilization_gpu ∧
        info.utilization_mem = st.utilization_mem ∧
        info.assigned_task_id = dictGet (assignedLookup running) st.index ∧
        info.is_free = !((assignedLookup running).any (fun q => q.1 = st.index)) := by
  unfold get_gpu_status at h
  rcases List.mem_map.mp h with ⟨st, hst, rfl⟩
  exact ⟨rfl, rfl, st, hst, rfl, rfl, rfl, rfl, rfl, rfl, rfl, rfl⟩

theorem C10_gpu_status_drops_uuid_and_processes_witness :
    ((get_gpu_status [gpuWithUuid] [(4, rtOnGpu0)]).headD
        { index := 0, name := "", is_free := true }).uuid = none ∧
    ((get_gpu_status [gpuWithUuid] [(4, rtOnGpu0)]).headD
        { index := 0, name := "", is_free := true }).processes = [] ∧
    ∃ st ∈ [gpuWithUuid],
      ((get_gpu_status [gpuWithUuid] [(4, rtOnGpu0)]).headD
          { index := 0, name := "", is_free := true }).index = st.index ∧
      ((get_gpu_status [gpuWithUuid] [(4, rtOnGpu0)]).headD
          { index := 0, name := "", is_free := true }).name = st.name ∧
      ((get_gpu_status [gpuWithUuid] [(4, rtOnGpu0)]).headD
          { index := 0, name := "", is_free := true }).memory_total = st.memory_total ∧
      ((get_gpu_status [gpuWithUuid] [(4, rtOnGpu0)]).headD
          { index := 0, name := "", is_free := true }).memory_used = st.memory_used ∧
      ((get_gpu_status [gpuWithUuid] [(4, rtOnGpu0)]).headD
          { index := 0, name := "", is_free := true }).utilization_gpu = st.utilization_gpu ∧
      ((get_gpu_status [gpuWithUuid] [(4, rtOnGpu0)]).headD
          { index := 0, name := "", is_free := true }).utilization_mem = st.utilization_mem ∧
      ((get_gpu_status [gpuWithUuid] [(4, rtOnGpu0)]).headD
          { index := 0, name := "", is_free := true }).assigned_task_id =
        dictGet (assignedLookup [(4, rtOnGpu0)]) st.index ∧
      ((get_gpu_status [gpuWithUuid] [(4, rtOnGpu0)]).headD
          { index := 0, name := "", is_free := true }).is_free =
        !((assignedLookup [(4, rtOnGpu0)]).any (fun q => q.1 = st.index)) :=
  C10_gpu_status_drops_uuid_and_processes [gpuWithUuid] [(4, rtOnGpu0)]
    ((get_gpu_status [gpuWithUuid] [(4, rtOnGpu0)]).headD
      { index := 0, name := "", is_free := true })
    (by decide)

/-! ### Reap-phase lemmas -/

theorem reapScan_fetch_of_not_mem (env : TickEnv) (rtl : List (Nat × RunningTask))
    (task_id : Nat) (h : ∀ p ∈ rtl, p.1 ≠ task_id) :
    ∀ db : List TaskRow,
      fetch_one (reapScan env rtl db).1 task_id = fetch_one db task_id := by
  induction rtl with
  | nil => intro db; rfl
  | cons p rest ih =>
    intro db
    obtain ⟨i, r⟩ := p
    have hi : i ≠ task_id := h (i, r) (List.mem_cons_self _ _)
    have hrest : ∀ q ∈ rest, q.1 ≠ task_id := fun q hq => h q (List.mem_cons_of_mem _ hq)
    by_cases ha : env.alive r.session_name
    · simp only [reapScan, if_pos ha]
      exact ih hrest db
    · simp only [reapScan, if_neg ha]
      rw [ih hrest, fetch_update_completion_ne _ _ _ _ _ _ _ (fun hc => hi hc.symm)]

theorem reapScan_reaps (env : TickEnv) (rtl : List (Nat × RunningTask))
    (task_id : Nat) (rt : RunningTask)
    (hmem : (task_id, rt) ∈ rtl)
    (hdead : env.alive rt.session_name = false)
    (hkeys : (rtl.map Prod.fst).Nodup) :
    ∀ db : List TaskRow,
      fetch_one (reapScan env rtl db).1 task_id =
        (fetch_one db task_id).map (fun r =>
          { r with
            status := (reapOutcome (read_exit_code env.fs rt.exit_code_path)).1,
            completed_at := some env.now,
            exit_code := read_exit_code env.fs rt.exit_code_path,
            error := (reapOutcome (read_exit_code env.fs rt.exit_code_path)).2 }) ∧
      task_id ∈ (reapScan env rtl db).2 := by
  induction rtl with
  | nil => exact absurd hmem (List.not_mem_nil _)
  | cons p rest ih =>
    intro db
    obtain ⟨i, r⟩ := p
    simp only [List.map_cons, List.nodup_cons] at hkeys
    rcases List.mem_cons.mp hmem with hhead | htail
    · have hi2 : task_id = i := congrArg Prod.fst hhead
      have hr2 : rt = r := congrArg Prod.snd hhead
      subst hi2
      subst hr2
      have hrest : ∀ q ∈ rest, q.1 ≠ task_id := by
        intro q hq hc
        exact hkeys.1 (hc ▸ List.mem_map_of_mem Prod.fst hq)
      have hcond : ¬ (env.alive rt.session_name = true) := by
        rw [hdead]
        exact Bool.false_ne_true
      simp only [reapScan, if_neg hcond]
      constructor
      · rw [reapScan_fetch_of_not_mem env rest task_id hrest,
          fetch_update_completion_self]
      · simp
    · have hi : i ≠ task_id := by
        intro hc
        exact hkeys.1 (hc ▸ List.mem_map_of_mem Prod.fst htail)
      have ihh := ih htail hkeys.2
      by_cases ha : env.alive r.session_name
      · simp only [reapScan, if_pos ha]
        exact ihh db
      · simp only [reapScan, if_neg ha]
        refine ⟨?_, ?_⟩
        · rw [(ihh _).1, fetch_update_completion_ne _ _ _ _ _ _ _ (fun hc => hi hc.symm)]
        · simp only [List.mem_cons]
          exact Or.inr (ihh _).2

theorem foldl_filter_subset (ids : List Nat) :
    ∀ (m : List (Nat × RunningTask)) (p : Nat × RunningTask),
      p ∈ ids.foldl (fun m i => m.filter (fun q => q.1 ≠ i)) m → p ∈ m := by
  induction ids with
  | nil => intro m p hp; exact hp
  | cons i rest ih =>
    intro m p hp
    have := ih _ p hp
    exact List.mem_of_mem_filter this

theorem notMem_foldl_filter (ids : List Nat) (task_id : Nat) (h : task_id ∈ ids) :
    ∀ m : List (Nat × RunningTask),
      task_id ∉ (ids.foldl (fun m i => m.filter (fun q => q.1 ≠ i)) m).map Prod.fst := by
  induction ids with
  | nil => exact absurd h (List.not_mem_nil _)
  | cons i rest ih =>
    intro m hmem
    rcases List.mem_cons.mp h with hh | ht
    · subst hh
      rcases List.mem_map.mp hmem with ⟨p, hp, hfst⟩
      have hpm := foldl_filter_subset rest _ p hp
      have h2 := List.of_mem_filter hpm
      simp only [decide_eq_true_eq] at h2
      exact h2 hfst
    · exact ih ht (m.filter (fun q => q.1 ≠ i)) hmem

/-- C4: when a running task's session is gone at the reap phase, the
exit-code sentinel decides its fate — missing/unparseable gives `failed`
with a null exit code and the sentinel message, `0` gives `completed`,
any other code gives `failed` with "Process exited with status k" — and
in each case the completion (with `completed_at = now`) is persisted and
the task leaves the in-memory running map. -/
theorem C4_reap_outcomes (env : TickEnv) (s : ManagerState) (task_id : Nat)
    (rt : RunningTask)
    (hmem : (task_id, rt) ∈ s.running)
    (hdead : env.alive rt.session_name = false)
    (hkeys : (s.running.map Prod.fst).Nodup) :
    (read_exit_code env.fs rt.exit_code_path = none →
      fetch_one (refresh_running_tasks env s).db task_id =
        (fetch_one s.db task_id).map (fun r =>
          { r with status := .failed, completed_at := some env.now, exit_code := none,
                   error := some "Task terminated without reporting an exit code" })) ∧
    (read_exit_code env.fs rt.exit_code_path = some 0 →
      fetch_one (refresh_running_tasks env s).db task_id =
        (fetch_one s.db task_id).map (fun r =>
          { r with status := .completed, completed_at := some env.now,
                   exit_code := some 0, error := none })) ∧
    (∀ k : Int, read_exit_code env.fs rt.exit_code_path = some k → k ≠ 0 →
      fetch_one (refresh_running_tasks env s).db task_id =
        (fetch_one s.db task_id).map (fun r =>
          { r with status := .failed, completed_at := some env.now, exit_code := some k,
                   error := some ("Process exited with status " ++ toString k) })) ∧
    task_id ∉ (refresh_running_tasks env s).running.map Prod.fst := by
  have hne : ¬ s.running = [] := by
    intro hc
    rw [hc] at hmem
    exact List.not_mem_nil _ hmem
  have hscan := reapScan_reaps env s.running task_id rt hmem hdead hkeys s.db
  have hdb : (refresh_running_tasks env s).db = (reapScan env s.running s.db).1 := by
    simp only [refresh_running_tasks, if_neg hne]
  have hrun : (refresh_running_tasks env s).running =
      (reapScan env s.running s.db).2.foldl
        (fun m i => m.filter (fun q => q.1 ≠ i)) s.running := by
    simp only [refresh_running_tasks, if_neg hne]
  refine ⟨?_, ?_, ?_, ?_⟩
  · intro hc
    rw [hdb, hscan.1, hc]
    rfl
  · intro hc
    rw [hdb, hscan.1, hc]
    rfl
  · intro k hc hk
    rw [hdb, hscan.1, hc]
    simp [reapOutcome, hk]
  · rw [hrun]
    exact notMem_foldl_filter _ task_id hscan.2 s.running

theorem C4_reap_outcomes_witness :
    (read_exit_code reapEnv.fs rt9.exit_code_path = none →
      fetch_one (refresh_running_tasks reapEnv reapState).db 9 =
        (fetch_one reapState.db 9).map (fun r =>
          { r with status := .failed, completed_at := some reapEnv.now, exit_code := none,
                   error := some "Task terminated without reporting an exit code" })) ∧
    (read_exit_code reapEnv.fs rt9.exit_code_path = some 0 →
      fetch_one (refresh_running_tasks reapEnv reapState).db 9 =
        (fetch_one reapState.db 9).map (fun r =>
          { r with status := .completed, completed_at := some reapEnv.now,
                   exit_code := some 0, error := none })) ∧
    (∀ k : Int, read_exit_code reapEnv.fs rt9.exit_code_path = some k → k ≠ 0 →
      fetch_one (refresh_running_tasks reapEnv reapState).db 9 =
        (fetch_one reapState.db 9).map (fun r =>
          { r with status := .failed, completed_at := some reapEnv.now, exit_code := some k,
                   error := some ("Process exited with status " ++ toString k) })) ∧
    9 ∉ (refresh_running_tasks reapEnv reapState).running.map Prod.fst :=
  C4_reap_outcomes reapEnv reapState 9 rt9 (by decide) (by decide) (by decide)

/-- C8: for an existing log file and `tail ≥ 1`, `get_task_logs` returns
exactly the last `tail` lines (all of them when the file has fewer) with
`truncated` true exactly when the file holds at least `tail` lines; a
missing file yields an empty line list with `truncated = false`. -/
theorem C8_log_tail (db : List TaskRow) (fs : String → Option String)
    (task_id tail : Nat) (row : TaskRow) (p : String)
    (hrow : fetch_one db task_id = some row)
    (hlog : row.log_path = some p)
    (hp : p ≠ "")
    (ht : 1 ≤ tail) :
    (match fs p with
     | some content =>
       get_task_logs db fs task_id tail =
         .ok ⟨task_id, (fileLines content).drop ((fileLines content).length - tail),
              decide (tail ≤ (fileLines content).length)⟩ ∧
       ((fileLines content).drop ((fileLines content).length - tail)).length =
         min tail (fileLines content).length ∧
       fileLines content =
         (fileLines content).take ((fileLines content).length - tail) ++
           (fileLines content).drop ((fileLines content).length - tail)
     | none => get_task_logs db fs task_id tail = .ok ⟨task_id, [], false⟩) := by
  cases hfs : fs p with
  | none => simp [get_task_logs, hrow, hlog, hp, hfs]
  | some content =>
    refine ⟨?_, ?_, (List.take_append_drop _ _).symm⟩
    · have htr : decide (tail ≠ 0 ∧
          ((fileLines content).drop ((fileLines content).length - tail)).length = tail) =
          decide (tail ≤ (fileLines content).length) :=
        decide_eq_decide.mpr (by rw [List.length_drop]; omega)
      simp only [get_task_logs, hrow, hlog, if_neg hp, hfs, htr]
    · rw [List.length_drop]
      omega

theorem C8_log_tail_witness :
    (match logFs "/rt/task_1/tmux.log" with
     | some content =>
       get_task_logs [logRow] logFs 1 2 =
         .ok ⟨1, (fileLines content).drop ((fileLines content).length - 2),
              decide (2 ≤ (fileLines content).length)⟩ ∧
       ((fileLines content).drop ((fileLines content).length - 2)).length =
         min 2 (fileLines content).length ∧
       fileLines content =
         (fileLines content).take ((fileLines content).length - 2) ++
           (fileLines content).drop ((fileLines content).length - 2)
     | none => get_task_logs [logRow] logFs 1 2 = .ok ⟨1, [], false⟩) :=
  C8_log_tail [logRow] logFs 1 2 logRow "/rt/task_1/tmux.log"
    (by decide) (by decide) (by decide) (by decide)

/-- C1 (spec-modelled `cancel_task`): a queued task is removed from the
queue and marked `cancelled`; a running task's session is killed and the
task is marked `cancelled` with `completed_at = now` and leaves the
running map; a terminal task fails with `Invalid`; the non-error cases
return the post-state detail view. -/
theorem C1_cancel_contract (s : ManagerState) (now task_id : Nat) (row : TaskRow)
    (hrow : fetch_one s.db task_id = some row) :
    (row.status = .queued →
      ∃ r, cancel_task s now task_id = .ok r ∧
        r.1.queue = s.queue.erase task_id ∧
        r.1.running = s.running ∧
        fetch_one r.1.db task_id = some { row with status := TaskStatus.cancelled } ∧
        r.2.1 = [] ∧
        r.2.2 = row_to_detail { row with status := TaskStatus.cancelled }) ∧
    (∀ session, row.status = .running → row.tmux_session = some session →
      ∃ r, cancel_task s now task_id = .ok r ∧
        r.2.1 = [session] ∧
        r.1.running = s.running.filter (fun q => q.1 ≠ task_id) ∧
        r.1.queue = s.queue ∧
        fetch_one r.1.db task_id =
          some { row with status := TaskStatus.cancelled, completed_at := some now } ∧
        r.2.2 = row_to_detail
          { row with status := TaskStatus.cancelled, completed_at := some now } ∧
        r.2.2.status = TaskStatus.cancelled ∧ r.2.2.completed_at = some now) ∧
    ((row.status = .completed ∨ row.status = .failed ∨ row.status = .cancelled) →
      cancel_task s now task_id = .error .Invalid) := by
  refine ⟨?_, ?_, ?_⟩
  · intro hst
    have hdb : fetch_one (update_task_status s.db task_id .cancelled row.error) task_id =
        some { row with status := TaskStatus.cancelled } := by
      rw [fetch_update_status_self, hrow]
      rfl
    refine ⟨({ s with
                db := update_task_status s.db task_id .cancelled row.error
                queue := s.queue.erase task_id }, [],
             row_to_detail { row with status := TaskStatus.cancelled }), ?_, rfl, rfl,
            hdb, rfl, rfl⟩
    simp only [cancel_task, hrow, hst, hdb]
  · intro session hst hsess
    have hdb : fetch_one
        (update_task_completion s.db task_id .cancelled now row.exit_code row.error)
        task_id =
        some { row with status := TaskStatus.cancelled, completed_at := some now } := by
      rw [fetch_update_completion_self, hrow]
      rfl
    refine ⟨({ s with
                db := update_task_completion s.db task_id .cancelled now row.exit_code
                  row.error
                running := s.running.filter (fun q => q.1 ≠ task_id) }, [session],
             row_to_detail
               { row with status := TaskStatus.cancelled, completed_at := some now }),
            ?_, rfl, rfl, rfl, hdb, rfl, rfl, rfl⟩
    simp only [cancel_task, hrow, hst, hsess, hdb]
  · intro hterm
    rcases hterm with hst | hst | hst <;> simp [cancel_task, hrow, hst]

theorem C1_cancel_contract_witness :
    (cancelRow.status = .queued →
      ∃ r, cancel_task cancelState 9 4 = .ok r ∧
        r.1.queue = cancelState.queue.erase 4 ∧
        r.1.running = cancelState.running ∧
        fetch_one r.1.db 4 = some { cancelRow with status := TaskStatus.cancelled } ∧
        r.2.1 = [] ∧
        r.2.2 = row_to_detail { cancelRow with status := TaskStatus.cancelled }) ∧
    (∀ session, cancelRow.status = .running → cancelRow.tmux_session = some session →
      ∃ r, cancel_task cancelState 9 4 = .ok r ∧
        r.2.1 = [session] ∧
        r.1.running = cancelState.running.filter (fun q => q.1 ≠ 4) ∧
        r.1.queue = cancelState.queue ∧
        fetch_one r.1.db 4 =
          some { cancelRow with status := TaskStatus.cancelled, completed_at := some 9 } ∧
        r.2.2 = row_to_detail
          { cancelRow with status := TaskStatus.cancelled, completed_at := some 9 } ∧
        r.2.2.status = TaskStatus.cancelled ∧ r.2.2.completed_at = some 9) ∧
    ((cancelRow.status = .completed ∨ cancelRow.status = .failed ∨
      cancelRow.status = .cancelled) →
      cancel_task cancelState 9 4 = .error .Invalid) :=
  C1_cancel_contract cancelState 9 4 cancelRow (by decide)

/-! ### Startup-recovery lemmas -/

theorem insertByCreated_perm (r : TaskRow) (l : List TaskRow) :
    (insertByCreated r l).Perm (r :: l) := by
  induction l with
  | nil => exact List.Perm.refl _
  | cons x xs ih =>
    by_cases h : r.created_at ≤ x.created_at
    · simp only [insertByCreated, if_pos h]
      exact List.Perm.refl _
    · simp only [insertByCreated, if_neg h]
      exact (ih.cons x).trans (List.Perm.swap r x xs)

theorem sortByCreated_perm (l : List TaskRow) : (sortByCreated l).Perm l := by
  induction l with
  | nil => exact List.Perm.refl _
  | cons x xs ih =>
    exact (insertByCreated_perm x (sortByCreated xs)).trans (ih.cons x)

theorem mem_insertByCreated (a r : TaskRow) (l : List TaskRow) :
    a ∈ insertByCreated r l ↔ a = r ∨ a ∈ l := by
  rw [(insertByCreated_perm r l).mem_iff, List.mem_cons]

theorem insertByCreated_sorted (r : TaskRow) (l : List TaskRow)
    (h : l.Pairwise (fun a b => a.created_at ≤ b.created_at)) :
    (insertByCreated r l).Pairwise (fun a b => a.created_at ≤ b.created_at) := by
  induction l with
  | nil => simp [insertByCreated]
  | cons x xs ih =>
    rcases List.pairwise_cons.mp h with ⟨hx, hxs⟩
    by_cases hr : r.created_at ≤ x.created_at
    · simp only [insertByCreated, if_pos hr]
      refine List.pairwise_cons.mpr ⟨?_, h⟩
      intro b hb
      rcases List.mem_cons.mp hb with rfl | hb2
      · exact hr
      · exact le_trans hr (hx b hb2)
    · simp only [insertByCreated, if_neg hr]
      refine List.pairwise_cons.mpr ⟨?_, ih hxs⟩
      intro b hb
      rcases (mem_insertByCreated b r xs).mp hb with rfl | hb2
      · omega
      · exact hx b hb2

theorem sortByCreated_sorted (l : List TaskRow) :
    (sortByCreated l).Pairwise (fun a b => a.created_at ≤ b.created_at) := by
  induction l with
  | nil => simp [sortByCreated]
  | cons x xs ih => exact insertByCreated_sorted x (sortByCreated xs) ih

theorem mem_insertRunning_self (m : List (Nat × RunningTask)) (task_id : Nat)
    (rt : RunningTask) : (task_id, rt) ∈ insertRunning m task_id rt := by
  unfold insertRunning
  by_cases h : m.any (fun p => p.1 = task_id)
  · rw [if_pos h]
    rcases List.any_eq_true.mp h with ⟨q, hq, hq1⟩
    simp only [decide_eq_true_eq] at hq1
    refine List.mem_map.mpr ⟨q, hq, ?_⟩
    rw [if_pos hq1, hq1]
  · rw [if_neg h]
    exact List.mem_append_right _ (List.mem_singleton.mpr rfl)

theorem mem_insertRunning_of_ne (m : List (Nat × RunningTask)) (id2 : Nat)
    (rt2 : RunningTask) (task_id : Nat) (rt : RunningTask)
    (hmem : (task_id, rt) ∈ m) (hne : task_id ≠ id2) :
    (task_id, rt) ∈ insertRunning m id2 rt2 := by
  unfold insertRunning
  by_cases h : m.any (fun p => p.1 = id2)
  · rw [if_pos h]
    refine List.mem_map.mpr ⟨(task_id, rt), hmem, ?_⟩
    rw [if_neg]
    exact hne
  · rw [if_neg h]
    exact List.mem_append_left _ hmem

theorem load_queue (alive : String → Bool) (now : Nat) (runtime_dir : String)
    (rows : List TaskRow) :
    ∀ s : ManagerState,
      (load_initial_state alive now runtime_dir s rows).queue =
        s.queue ++ (rows.filter (fun r => r.status = .queued)).map (fun r => r.id) := by
  induction rows with
  | nil => intro s; simp [load_initial_state]
  | cons row rest ih =>
    intro s
    by_cases hq : row.status = .queued
    · simp only [load_initial_state, if_pos hq, ih, List.filter_cons,
        decide_eq_true_eq, if_pos hq]
      simp [hq, List.append_assoc]
    · have hfq : (decide (row.status = TaskStatus.queued)) = false := by simp [hq]
      cases hsess : row.tmux_session with
      | some session =>
        by_cases hcond : session ≠ "" ∧ alive session = true
        · simp only [load_initial_state, if_neg hq, hsess, if_pos hcond, ih,
            List.filter_cons, hfq]
          simp
        · simp only [load_initial_state, if_neg hq, hsess, if_neg hcond, ih,
            List.filter_cons, hfq]
          simp
      | none =>
        simp only [load_initial_state, if_neg hq, hsess, ih, List.filter_cons, hfq]
        simp

theorem load_db_not_mem (alive : String → Bool) (now : Nat) (runtime_dir : String)
    (rows : List TaskRow) (task_id : Nat) (h : ∀ r ∈ rows, r.id ≠ task_id) :
    ∀ s : ManagerState,
      fetch_one (load_initial_state alive now runtime_dir s rows).db task_id =
        fetch_one s.db task_id := by
  induction rows with
  | nil => intro s; rfl
  | cons row rest ih =>
    intro s
    have hrow : row.id ≠ task_id := h row (List.mem_cons_self _ _)
    have hrest : ∀ r ∈ rest, r.id ≠ task_id := fun r hr => h r (List.mem_cons_of_mem _ hr)
    by_cases hq : row.status = .queued
    · simp only [load_initial_state, if_pos hq]
      exact ih hrest _
    · cases hsess : row.tmux_session with
      | some session =>
        by_cases hcond : session ≠ "" ∧ alive session = true
        · simp only [load_initial_state, if_neg hq, hsess, if_pos hcond]
          exact ih hrest _
        · simp only [load_initial_state, if_neg hq, hsess, if_neg hcond]
          rw [ih hrest _]
          exact fetch_update_completion_ne _ _ _ _ _ _ _ (fun hc => hrow hc.symm)
      | none =>
        simp only [load_initial_state, if_neg hq, hsess]
        rw [ih hrest _]
        exact fetch_update_completion_ne _ _ _ _ _ _ _ (fun hc => hrow hc.symm)

theorem load_running_preserved (alive : String → Bool) (now : Nat) (runtime_dir : String)
    (rows : List TaskRow) (task_id : Nat) (rt : RunningTask)
    (h : ∀ r ∈ rows, r.id ≠ task_id) :
    ∀ s : ManagerState, (task_id, rt) ∈ s.running →
      (task_id, rt) ∈ (load_initial_state alive now runtime_dir s rows).running := by
  induction rows with
  | nil => intro s hs; exact hs
  | cons row rest ih =>
    intro s hs
    have hrow : row.id ≠ task_id := h row (List.mem_cons_self _ _)
    have hrest : ∀ r ∈ rest, r.id ≠ task_id := fun r hr => h r (List.mem_cons_of_mem _ hr)
    by_cases hq : row.status = .queued
    · simp only [load_initial_state, if_pos hq]
      exact ih hrest _ hs
    · cases hsess : row.tmux_session with
      | some session =>
        by_cases hcond : session ≠ "" ∧ alive session = true
        · simp only [load_initial_state, if_neg hq, hsess, if_pos hcond]
          exact ih hrest _ (mem_insertRunning_of_ne _ _ _ _ _ hs (fun hc => hrow hc.symm))
        · simp only [load_initial_state, if_neg hq, hsess, if_neg hcond]
          exact ih hrest _ hs
      | none =>
        simp only [load_initial_state, if_neg hq, hsess]
        exact ih hrest _ hs

theorem load_row_outcome (alive : String → Bool) (now : Nat) (runtime_dir : String) :
    ∀ rows : List TaskRow, (rows.map (fun r => r.id)).Nodup →
    ∀ (s : ManagerState) (row : TaskRow), row ∈ rows → row.status = .running →
      (match row.tmux_session with
       | some session =>
         if session ≠ "" ∧ alive session = true then
           (row.id, mkRecovered runtime_dir row session now) ∈
             (load_initial_state alive now runtime_dir s rows).running ∧
           fetch_one (load_initial_state alive now runtime_dir s rows).db row.id =
             fetch_one s.db row.id
         else
           fetch_one (load_initial_state alive now runtime_dir s rows).db row.id =
             (fetch_one s.db row.id).map (fun r =>
               { r with status := .failed, completed_at := some now, exit_code := none,
                        error := some "tmux session missing after restart" })
       | none =>
         fetch_one (load_initial_state alive now runtime_dir s rows).db row.id =
           (fetch_one s.db row.id).map (fun r =>
             { r with status := .failed, completed_at := some now, exit_code := none,
                      error := some "tmux session missing after restart" })) := by
  intro rows
  induction rows with
  | nil =>
    intro _ s row hmem
    exact absurd hmem (List.not_mem_nil _)
  | cons r0 rest ih =>
    intro hids s row hmem hst
    simp only [List.map_cons, List.nodup_cons] at hids
    rcases List.mem_cons.mp hmem with rfl | htail
    · have hnq : ¬ row.status = .queued := by simp [hst]
      have hrest : ∀ r ∈ rest, r.id ≠ row.id := fun r hr hc =>
        hids.1 (hc ▸ List.mem_map_of_mem _ hr)
      cases hsess : row.tmux_session with
      | some session =>
        simp only [hsess]
        by_cases hcond : session ≠ "" ∧ alive session = true
        · rw [if_pos hcond]
          constructor
          · simp only [load_initial_state, if_neg hnq, hsess, if_pos hcond]
            exact load_running_preserved alive now runtime_dir rest row.id _ hrest _
              (mem_insertRunning_self _ _ _)
          · simp only [load_initial_state, if_neg hnq, hsess, if_pos hcond]
            exact load_db_not_mem alive now runtime_dir rest row.id hrest _
        · rw [if_neg hcond]
          simp only [load_initial_state, if_neg hnq, hsess, if_neg hcond]
          rw [load_db_not_mem alive now runtime_dir rest row.id hrest _]
          exact fetch_update_completion_self s.db row.id _ _ _ _
      | none =>
        simp only [hsess]
        simp only [load_initial_state, if_neg hnq, hsess]
        rw [load_db_not_mem alive now runtime_dir rest row.id hrest _]
        exact fetch_update_completion_self s.db row.id _ _ _ _
    · have hr0 : r0.id ≠ row.id := fun hc => hids.1 (hc ▸ List.mem_map_of_mem _ htail)
      have ihh := ih hids.2
      by_cases hq : r0.status = .queued
      · simp only [load_initial_state, if_pos hq]
        exact ihh _ row htail hst
      · cases hsess0 : r0.tmux_session with
        | some sess0 =>
          by_cases hcond0 : sess0 ≠ "" ∧ alive sess0 = true
          · simp only [load_initial_state, if_neg hq, hsess0, if_pos hcond0]
            exact ihh _ row htail hst
          · simp only [load_initial_state, if_neg hq, hsess0, if_neg hcond0]
            have hdb : fetch_one (update_task_completion s.db r0.id .failed now none
                (some "tmux session missing after restart")) row.id =
                fetch_one s.db row.id :=
              fetch_update_completion_ne _ _ _ _ _ _ _ (fun hc => hr0 hc.symm)
            have ihh2 := ihh { s with
              db := update_task_completion s.db r0.id .failed now none
                (some "tmux session missing after restart") } row htail hst
            dsimp only at ihh2
            rw [hdb] at ihh2
            exact ihh2
        | none =>
          simp only [load_initial_state, if_neg hq, hsess0]
          have hdb : fetch_one (update_task_completion s.db r0.id .failed now none
              (some "tmux session missing after restart")) row.id =
              fetch_one s.db row.id :=
            fetch_update_completion_ne _ _ _ _ _ _ _ (fun hc => hr0 hc.symm)
          have ihh2 := ihh { s with
            db := update_task_completion s.db r0.id .failed now none
              (some "tmux session missing after restart") } row htail hst
          dsimp only at ihh2
          rw [hdb] at ihh2
          exact ihh2

/-- C5: startup recovery reloads the non-terminal rows in `created_at`
order; queued rows are appended to the queue tail in that order; a
running row whose recorded session is live is rebuilt as an in-memory
`RunningTask` on the existing runtime paths with its stored row left
untouched (so its status stays `running`); a running row whose session is
gone is marked `failed` with "tmux session missing after restart". -/
theorem C5_startup_recovery (alive : String → Bool) (now : Nat) (runtime_dir : String)
    (s : ManagerState) (hids : (s.db.map (fun r => r.id)).Nodup) :
    (selectNonTerminal s.db).Pairwise (fun a b => a.created_at ≤ b.created_at) ∧
    (startRecovery alive now runtime_dir s).queue =
      s.queue ++
        ((selectNonTerminal s.db).filter (fun r => r.status = .queued)).map
          (fun r => r.id) ∧
    (∀ row ∈ selectNonTerminal s.db, row.status = .running →
      (match row.tmux_session with
       | some session =>
         if session ≠ "" ∧ alive session = true then
           (row.id, mkRecovered runtime_dir row session now) ∈
             (startRecovery alive now runtime_dir s).running ∧
           fetch_one (startRecovery alive now runtime_dir s).db row.id =
             fetch_one s.db row.id
         else
           fetch_one (startRecovery alive now runtime_dir s).db row.id =
             (fetch_one s.db row.id).map (fun r =>
               { r with status := .failed, completed_at := some now, exit_code := none,
                        error := some "tmux session missing after restart" })
       | none =>
         fetch_one (startRecovery alive now runtime_dir s).db row.id =
           (fetch_one s.db row.id).map (fun r =>
             { r with status := .failed, completed_at := some now, exit_code := none,
                      error := some "tmux session missing after restart" }))) := by
  have hnodup : ((selectNonTerminal s.db).map (fun r => r.id)).Nodup := by
    have h2 : (((s.db.filter
        (fun r => r.status = .queued || r.status = .running)).map
          (fun r => r.id))).Nodup :=
      hids.sublist ((List.filter_sublist _).map _)
    exact ((sortByCreated_perm _).map _).nodup_iff.mpr h2
  refine ⟨sortByCreated_sorted _, ?_, ?_⟩
  · exact load_queue alive now runtime_dir (selectNonTerminal s.db) s
  · intro row hmem hst
    exact load_row_outcome alive now runtime_dir _ hnodup s row hmem hst

theorem C5_startup_recovery_witness :
    (selectNonTerminal recoveryState.db).Pairwise
      (fun a b => a.created_at ≤ b.created_at) ∧
    (startRecovery recoveryAlive 11 "/rt" recoveryState).queue =
      recoveryState.queue ++
        ((selectNonTerminal recoveryState.db).filter
          (fun r => r.status = .queued)).map (fun r => r.id) ∧
    (∀ row ∈ selectNonTerminal recoveryState.db, row.status = .running →
      (match row.tmux_session with
       | some session =>
         if session ≠ "" ∧ recoveryAlive session = true then
           (row.id, mkRecovered "/rt" row session 11) ∈
             (startRecovery recoveryAlive 11 "/rt" recoveryState).running ∧
           fetch_one (startRecovery recoveryAlive 11 "/rt" recoveryState).db row.id =
             fetch_one recoveryState.db row.id
         else
           fetch_one (startRecovery recoveryAlive 11 "/rt" recoveryState).db row.id =
             (fetch_one recoveryState.db row.id).map (fun r =>
               { r with status := .failed, completed_at := some 11, exit_code := none,
                        error := some "tmux session missing after restart" })
       | none =>
         fetch_one (startRecovery recoveryAlive 11 "/rt" recoveryState).db row.id =
           (fetch_one recoveryState.db row.id).map (fun r =>
             { r with status := .failed, completed_at := some 11, exit_code := none,
                      error := some "tmux session missing after restart" }))) :=
  C5_startup_recovery recoveryAlive 11 "/rt" recoveryState (by decide)

/-! ### Disjointness-invariant lemmas -/

theorem mem_runningIndices (running : List (Nat × RunningTask)) (x : Int) :
    x ∈ runningIndices running ↔ ∃ p ∈ running, x ∈ p.2.assigned_gpus := by
  simp [runningIndices, List.mem_flatMap]

theorem mem_insertRunning_elim (m : List (Nat × RunningTask)) (task_id : Nat)
    (rt : RunningTask) (p : Nat × RunningTask) (hp : p ∈ insertRunning m task_id rt) :
    p ∈ m ∨ p.2 = rt := by
  unfold insertRunning at hp
  by_cases h : m.any (fun q => q.1 = task_id)
  · rw [if_pos h] at hp
    rcases List.mem_map.mp hp with ⟨q, hq, heq⟩
    by_cases hq1 : q.1 = task_id
    · rw [if_pos hq1] at heq
      right
      rw [← heq]
    · rw [if_neg hq1] at heq
      left
      rw [← heq]
      exact hq
  · rw [if_neg h] at hp
    rcases List.mem_append.mp hp with hl | hr
    · exact Or.inl hl
    · right
      rw [List.mem_singleton.mp hr]

theorem runningIndices_insertRunning_sub (m : List (Nat × RunningTask)) (task_id : Nat)
    (rt : RunningTask) (x : Int) (hx : x ∈ runningIndices (insertRunning m task_id rt)) :
    x ∈ runningIndices m ∨ x ∈ rt.assigned_gpus := by
  rcases (mem_runningIndices _ _).mp hx with ⟨p, hp, hxp⟩
  rcases mem_insertRunning_elim m task_id rt p hp with hm | hrt
  · exact Or.inl ((mem_runningIndices _ _).mpr ⟨p, hm, hxp⟩)
  · exact Or.inr (hrt ▸ hxp)

theorem keys_insertRunning_nodup (m : List (Nat × RunningTask)) (task_id : Nat)
    (rt : RunningTask) (hkeys : (m.map Prod.fst).Nodup) :
    ((insertRunning m task_id rt).map Prod.fst).Nodup := by
  unfold insertRunning
  by_cases h : m.any (fun q => q.1 = task_id)
  · rw [if_pos h, List.map_map]
    have : (Prod.fst ∘ fun p : Nat × RunningTask =>
        if p.1 = task_id then (p.1, rt) else p) = Prod.fst := by
      funext p
      by_cases hp : p.1 = task_id <;> simp [Function.comp, hp]
    rw [this]
    exact hkeys
  · rw [if_neg h, List.map_append]
    rw [List.nodup_append]
    refine ⟨hkeys, List.nodup_singleton _, ?_⟩
    intro a ha
    simp only [List.map_cons, List.map_nil, List.mem_singleton]
    intro hc
    subst hc
    rcases List.mem_map.mp ha with ⟨q, hq, hfst⟩
    rw [Bool.not_eq_true, List.any_eq_false] at h
    have hne : ¬ q.1 = a := by simpa using h q hq
    exact hne hfst

theorem pairwiseDisjoint_insertRunning (m : List (Nat × RunningTask)) (task_id : Nat)
    (rt : RunningTask) (hP : PairwiseDisjointRunning m)
    (hkeys : (m.map Prod.fst).Nodup)
    (hnew : ∀ x ∈ rt.assigned_gpus, x ∉ runningIndices m) :
    PairwiseDisjointRunning (insertRunning m task_id rt) := by
  unfold insertRunning PairwiseDisjointRunning
  by_cases h : m.any (fun q => q.1 = task_id)
  · rw [if_pos h]
    have hk : m.Pairwise (fun a b => a.1 ≠ b.1) := List.pairwise_map.mp hkeys
    rw [List.pairwise_map]
    refine ((hP.and hk).imp_of_mem ?_)
    intro a b ha hb hab
    by_cases haid : a.1 = task_id
    · by_cases hbid : b.1 = task_id
      · exact absurd (haid.trans hbid.symm) hab.2
      · rw [if_pos haid, if_neg hbid]
        intro x hx hxb
        exact hnew x hx ((mem_runningIndices _ _).mpr ⟨b, hb, hxb⟩)
    · by_cases hbid : b.1 = task_id
      · rw [if_neg haid, if_pos hbid]
        intro x hx hxr
        exact hnew x hxr ((mem_runningIndices _ _).mpr ⟨a, ha, hx⟩)
      · rw [if_neg haid, if_neg hbid]
        exact hab.1
  · rw [if_neg h]
    rw [List.pairwise_append]
    refine ⟨hP, List.pairwise_singleton _ _, ?_⟩
    intro a ha b hb
    rw [List.mem_singleton.mp hb]
    intro x hx hxr
    exact hnew x hxr ((mem_runningIndices _ _).mpr ⟨a, ha, hx⟩)

theorem mem_freeOfType (assigned : List Int) (gpus : List GPUState) (t : String)
    (g : GPUState) :
    g ∈ freeOfType assigned gpus t ↔ g ∈ gpus ∧ g.index ∉ assigned ∧ g.name = t := by
  simp [freeOfType, List.mem_filter, and_assoc]

theorem loopInv_init (gpus : List GPUState) (running : List (Nat × RunningTask))
    (hdisj : PairwiseDisjointRunning running)
    (hkeys : (running.map Prod.fst).Nodup)
    (hgpus : (gpus.map (fun g => g.index)).Nodup) :
    LoopInv (group_available (runningIndices running) gpus) running := by
  refine ⟨hdisj, hkeys, ?_, ?_, ?_⟩
  · intro t
    rw [getType_group]
    exact hgpus.sublist ((List.filter_sublist _).map _)
  · intro t u hne g hg g2 hg2 heq
    rw [getType_group] at hg hg2
    rcases (mem_freeOfType _ _ _ _).mp hg with ⟨hgm, _, hgn⟩
    rcases (mem_freeOfType _ _ _ _).mp hg2 with ⟨hg2m, _, hg2n⟩
    have := List.inj_on_of_nodup_map hgpus hgm hg2m heq
    exact hne (hgn ▸ hg2n ▸ congrArg GPUState.name this)
  · intro t g hg
    rw [getType_group] at hg
    exact ((mem_freeOfType _ _ _ _).mp hg).2.1

theorem loopInv_step (avail : List (String × List GPUState))
    (running : List (Nat × RunningTask)) (task_id : Nat) (runtime_dir : String)
    (now : Nat) (t : String) (n : Nat) (hinv : LoopInv avail running) :
    LoopInv (setType avail t ((getType avail t).drop n))
      (insertRunning running task_id
        (mkRunning runtime_dir task_id (((getType avail t).take n).map
          (fun g => g.index)) now)) := by
  obtain ⟨hP, hkeys, hwithin, hcross, hpool⟩ := hinv
  have hbatch : ∀ x ∈ ((getType avail t).take n).map (fun g => g.index),
      x ∉ runningIndices running := by
    intro x hx
    rcases List.mem_map.mp hx with ⟨g, hg, rfl⟩
    exact hpool t g (List.take_subset n _ hg)
  have htd : ((getType avail t).take n).map (fun g => g.index) ++
      ((getType avail t).drop n).map (fun g => g.index) =
      (getType avail t).map (fun g => g.index) := by
    rw [← List.map_append, List.take_append_drop]
  refine ⟨?_, ?_, ?_, ?_, ?_⟩
  · exact pairwiseDisjoint_insertRunning running task_id _ hP hkeys hbatch
  · exact keys_insertRunning_nodup running task_id _ hkeys
  · intro u
    rw [getType_setType]
    by_cases hu : u = t
    · rw [if_pos hu]
      exact (hwithin t).sublist ((List.drop_sublist _ _).map _)
    · rw [if_neg hu]
      exact hwithin u
  · intro t1 u1 hne g hg g2 hg2
    rw [getType_setType] at hg hg2
    have hg3 : g ∈ getType avail t1 := by
      by_cases h1 : t1 = t
      · rw [if_pos h1] at hg
        rw [h1]
        exact List.drop_subset _ _ hg
      · rw [if_neg h1] at hg
        exact hg
    have hg4 : g2 ∈ getType avail u1 := by
      by_cases h2 : u1 = t
      · rw [if_pos h2] at hg2
        rw [h2]
        exact List.drop_subset _ _ hg2
      · rw [if_neg h2] at hg2
        exact hg2
    exact hcross t1 u1 hne g hg3 g2 hg4
  · intro u g hg hmem
    rw [getType_setType] at hg
    rcases runningIndices_insertRunning_sub _ _ _ _ hmem with hold | hbat
    · by_cases hu : u = t
      · rw [if_pos hu] at hg
        exact hpool t g (List.drop_subset _ _ hg) hold
      · rw [if_neg hu] at hg
        exact hpool u g hg hold
    · simp only [mkRunning] at hbat
      rcases List.mem_map.mp hbat with ⟨g2, hg2, heq⟩
      by_cases hu : u = t
      · rw [if_pos hu] at hg
        have hnd := hwithin t
        rw [← htd] at hnd
        have hdisj2 := List.disjoint_of_nodup_append hnd
        exact hdisj2 (heq ▸ List.mem_map_of_mem _ hg2)
          (List.mem_map_of_mem _ hg)
      · rw [if_neg hu] at hg
        exact hcross u t hu g hg g2 (List.take_subset _ _ hg2) heq.symm

theorem launchLoop_inv (env : TickEnv) (runtime_dir : String) :
    ∀ (q : List Nat) (db : List TaskRow) (avail : List (String × List GPUState))
      (running : List (Nat × RunningTask)), LoopInv avail running →
      PairwiseDisjointRunning (launchLoop env runtime_dir db avail running q).running ∧
      (((launchLoop env runtime_dir db avail running q).running).map Prod.fst).Nodup := by
  intro q
  induction q with
  | nil =>
    intro db avail running hinv
    exact ⟨hinv.1, hinv.2.1⟩
  | cons task_id rest ih =>
    intro db avail running hinv
    cases hrow : fetch_one db task_id with
    | none =>
      simp only [launchLoop, hrow]
      exact ⟨hinv.1, hinv.2.1⟩
    | some row =>
      by_cases hblock : (getType avail row.gpu_type).length < row.gpu_count
      · simp only [launchLoop, hrow, if_pos hblock]
        exact ⟨hinv.1, hinv.2.1⟩
      · cases hlr : env.launchResult task_id with
        | some msg =>
          simp only [launchLoop, hrow, if_neg hblock, hlr]
          exact ⟨hinv.1, hinv.2.1⟩
        | none =>
          simp only [launchLoop, hrow, if_neg hblock, hlr]
          exact ih _ _ _
            (loopInv_step avail running task_id runtime_dir env.now row.gpu_type
              row.gpu_count hinv)

theorem launch_phase_inv (env : TickEnv) (runtime_dir : String) (gpus : List GPUState)
    (s : ManagerState)
    (hdisj : PairwiseDisjointRunning s.running)
    (hkeys : (s.running.map Prod.fst).Nodup)
    (hgpus : (gpus.map (fun g => g.index)).Nodup) :
    PairwiseDisjointRunning (launch_tasks_if_possible env runtime_dir gpus s).running ∧
    (((launch_tasks_if_possible env runtime_dir gpus s).running).map Prod.fst).Nodup := by
  by_cases hq : s.queue = []
  · simp only [launch_tasks_if_possible, if_pos hq]
    exact ⟨hdisj, hkeys⟩
  · simp only [launch_tasks_if_possible, if_neg hq]
    exact launchLoop_inv env runtime_dir s.queue s.db _ s.running
      (loopInv_init gpus s.running hdisj hkeys hgpus)

theorem foldl_filter_sublist (ids : List Nat) :
    ∀ m : List (Nat × RunningTask),
      (ids.foldl (fun m i => m.filter (fun q => q.1 ≠ i)) m).Sublist m := by
  induction ids with
  | nil => intro m; exact List.Sublist.refl m
  | cons i rest ih =>
    intro m
    exact (ih _).trans (List.filter_sublist m)

theorem refresh_running_sublist (env : TickEnv) (s : ManagerState) :
    (refresh_running_tasks env s).running.Sublist s.running := by
  by_cases hr : s.running = []
  · simp only [refresh_running_tasks, if_pos hr]
    exact List.Sublist.refl _
  · simp only [refresh_running_tasks, if_neg hr]
    exact foldl_filter_sublist _ s.running

theorem create_task_running_eq (gpus : List GPUState) (now : Nat) (payload : TaskCreate)
    (s : ManagerState) (r : ManagerState × Nat)
    (h : create_task gpus now payload s = .ok r) : r.1.running = s.running := by
  unfold create_task at h
  split_ifs at h
  injection h with h2
  rw [← h2]

theorem cancel_task_running_sublist (s : ManagerState) (now task_id : Nat)
    (r : ManagerState × List String × TaskDetail)
    (h : cancel_task s now task_id = .ok r) : r.1.running.Sublist s.running := by
  cases hrow : fetch_one s.db task_id with
  | none =>
    simp only [cancel_task, hrow] at h
    exact Except.noConfusion h
  | some row =>
    cases hst : row.status with
    | queued =>
      simp only [cancel_task, hrow, hst] at h
      cases hf : fetch_one (update_task_status s.db task_id .cancelled row.error) task_id
        with
      | none =>
        rw [hf] at h
        exact Except.noConfusion h
      | some row2 =>
        rw [hf] at h
        injection h with h2
        rw [← h2]
    | running =>
      simp only [cancel_task, hrow, hst] at h
      cases hf : fetch_one
          (update_task_completion s.db task_id .cancelled now row.exit_code row.error)
          task_id with
      | none =>
        rw [hf] at h
        exact Except.noConfusion h
      | some row2 =>
        rw [hf] at h
        injection h with h2
        rw [← h2]
        exact List.filter_sublist _
    | completed =>
      simp only [cancel_task, hrow, hst] at h
      exact Except.noConfusion h
    | failed =>
      simp only [cancel_task, hrow, hst] at h
      exact Except.noConfusion h
    | cancelled =>
      simp only [cancel_task, hrow, hst] at h
      exact Except.noConfusion h

theorem applyOp_inv (runtime_dir : String) (s : ManagerState) (op : Op)
    (hdisj : PairwiseDisjointRunning s.running)
    (hkeys : (s.running.map Prod.fst).Nodup)
    (hop : opOk op = true) :
    PairwiseDisjointRunning (applyOp runtime_dir s op).running ∧
    (((applyOp runtime_dir s op).running).map Prod.fst).Nodup := by
  cases op with
  | create payload gpus now =>
    simp only [applyOp]
    cases hc : create_task gpus now payload s with
    | ok r =>
      rw [create_task_running_eq gpus now payload s r hc]
      exact ⟨hdisj, hkeys⟩
    | error e => exact ⟨hdisj, hkeys⟩
  | cancel task_id now =>
    simp only [applyOp]
    cases hc : cancel_task s now task_id with
    | ok r =>
      have hsub := cancel_task_running_sublist s now task_id r hc
      exact ⟨List.Pairwise.sublist hsub hdisj, hkeys.sublist (hsub.map _)⟩
    | error e => exact ⟨hdisj, hkeys⟩
  | tick gpus env =>
    have hgpus : (gpus.map (fun g => g.index)).Nodup := by
      have := hop
      simp only [opOk, snapshotOk] at this
      exact of_decide_eq_true this
    have hphase := launch_phase_inv env runtime_dir gpus s hdisj hkeys hgpus
    have hsub := refresh_running_sublist env (launch_tasks_if_possible env runtime_dir gpus s)
    simp only [applyOp, schedulerTick]
    exact ⟨List.Pairwise.sublist hsub hphase.1, (hphase.2).sublist (hsub.map _)⟩

theorem applyOps_inv (runtime_dir : String) :
    ∀ (ops : List Op) (s : ManagerState),
      PairwiseDisjointRunning s.running →
      (s.running.map Prod.fst).Nodup →
      ops.all opOk = true →
      PairwiseDisjointRunning (applyOps runtime_dir s ops).running ∧
      (((applyOps runtime_dir s ops).running).map Prod.fst).Nodup := by
  intro ops
  induction ops with
  | nil =>
    intro s hdisj hkeys _
    exact ⟨hdisj, hkeys⟩
  | cons op rest ih =>
    intro s hdisj hkeys hall
    rw [List.all_cons, Bool.and_eq_true] at hall
    have hstep := applyOp_inv runtime_dir s op hdisj hkeys hall.1
    exact ih (applyOp runtime_dir s op) hstep.1 hstep.2 hall.2

/-- C6: starting from a fresh manager, any sequence of creates, cancels
and scheduler ticks (each tick taking a snapshot with one entry per
physical GPU) leaves the assigned-GPU sets of the running tasks pairwise
disjoint at every quiescent point: the launch phase draws only on GPUs
excluded from the assigned set and consumes each granted GPU from the
pool before the next launch. -/
theorem C6_assigned_gpus_pairwise_disjoint (runtime_dir : String) (ops : List Op)
    (hok : ops.all opOk = true) :
    PairwiseDisjointRunning ((applyOps runtime_dir initState ops).running) :=
  (applyOps_inv runtime_dir ops initState (List.Pairwise.nil) (List.nodup_nil) hok).1

theorem C6_assigned_gpus_pairwise_disjoint_witness :
    PairwiseDisjointRunning
      ((applyOps "/rt" initState
        [Op.create { name := "t", gpu_type := "A100", gpu_count := 1, command := "c" }
           [{ index := 0, name := "A100" }, { index := 1, name := "A100" }] 1,
         Op.create { name := "t2", gpu_type := "A100", gpu_count := 1, command := "c" }
           [{ index := 0, name := "A100" }, { index := 1, name := "A100" }] 2,
         Op.tick [{ index := 0, name := "A100" }, { index := 1, name := "A100" }]
           { launchResult := fun _ => none, alive := fun _ => true, fs := fun _ => none,
             now := 3 }]).running) :=
  C6_assigned_gpus_pairwise_disjoint "/rt"
    [Op.create { name := "t", gpu_type := "A100", gpu_count := 1, command := "c" }
       [{ index := 0, name := "A100" }, { index := 1, name := "A100" }] 1,
     Op.create { name := "t2", gpu_type := "A100", gpu_count := 1, command := "c" }
       [{ index := 0, name := "A100" }, { index := 1, name := "A100" }] 2,
     Op.tick [{ index := 0, name := "A100" }, { index := 1, name := "A100" }]
       { launchResult := fun _ => none, alive := fun _ => true, fs := fun _ => none,
         now := 3 }]
    (by decide)
